import Mathlib

/-!
Verification of the ClawCloud auto-login script (`scripts/auto_login.py`).

The script drives a browser through a GitHub-OAuth login flow against the
ClawCloud console, persists session cookies, performs keep-alive visits and
reports the outcome through a Telegram bot.  We embed the script shallowly:

* the browser (Playwright page/context) is an abstract state type `σ`
  together with a `Browser σ` record of oracle operations; operations that
  can raise a Python exception return `Except String _`;
* the Telegram HTTP API is an oracle `TgReq → Nat` giving the status code of
  each request (a thrown `requests` exception is observationally a non-200
  status, since the script catches it and returns `False`);
* the process state of the `AutoLogin` object (logs, screenshots, notifier,
  credentials) is threaded explicitly, and every observable side effect
  (a printed log line, a screenshot file, a Telegram request, the
  `cookies.json` write, each `page.url` poll of the redirect waiter) is
  recorded in an event trace.
-/

namespace Claw

/-- Substring test on lists of characters: `isPrefixL n h` holds iff `n` is a
prefix of `h` (Python `str.startswith` on the suffix under scrutiny). -/
def isPrefixL : List Char → List Char → Bool
  | [], _ => true
  | _ :: _, [] => false
  | a :: as, b :: bs => a == b && isPrefixL as bs

/-- `isInfixL n h` decides whether `n` occurs contiguously inside `h`. -/
def isInfixL (n : List Char) : List Char → Bool
  | [] => n.isEmpty
  | c :: cs => isPrefixL n (c :: cs) || isInfixL n cs

/-- Python's `needle in hay` substring operator on strings. -/
def substr (needle hay : String) : Bool :=
  isInfixL needle.data hay.data

/-- Python `str.lower()`, character by character (the URLs and page text
involved are ASCII). -/
def lowerStr (s : String) : String :=
  ⟨s.data.map Char.toLower⟩

/-- Drop the first `n` characters of a string. -/
def dropStr (s : String) (n : Nat) : String :=
  ⟨s.data.drop n⟩

/-- Python truthiness of an `os.environ.get` result: `None` and the empty
string are falsy. -/
def truthy : Option String → Bool
  | none => false
  | some s => s ≠ ""

/-- Python `str(x)` on an optional string: `None` prints as `"None"`. -/
def optStr : Option String → String
  | none => "None"
  | some s => s

/-- Python `logs[-10:]` / `token[-4:]`: the last `k` elements of a list. -/
def lastN (k : Nat) (l : List α) : List α :=
  l.drop (l.length - k)

/-- Python `f"{n:02d}"` for the screenshot counter. -/
def pad2 (n : Nat) : String :=
  if n < 10 then "0" ++ toString n else toString n

/-- The process environment, `os.environ.get`. -/
abbrev Env := String → Option String

/-- A browser cookie as returned by `context.cookies()`. -/
structure Cookie where
  name : String
  value : String
  domain : String
deriving DecidableEq, Repr

/-- A request to the Telegram bot API (the three endpoints the notifier
uses). -/
inductive TgReq where
  | sendMessage (chat_id text : String)
  | sendPhoto (chat_id path caption : String)
  | sendDocument (chat_id path caption : String)
deriving DecidableEq, Repr

/-- The page-state checks performed by `login_github`, in source order. -/
inductive CheckTag where
  | errorBanner
  | deviceVerification
  | twoFactor
  | loginPage
deriving DecidableEq, Repr

/-- Observable events of a run: printed log lines (with their level),
screenshot files, Telegram-notification calls and HTTP requests, the
`cookies.json` write, the browser launch, and each `page.url` poll of the
redirect waiter. -/
inductive Ev where
  | logE (level line : String)
  | shotE (filename : String)
  | notifyCallE (success : Bool) (errorMsg : String)
  | tgReqE (req : TgReq)
  | cookieWriteE (content : List Cookie)
  | browserLaunchE
  | pollE (url : String)
  | checkE (tag : CheckTag)
deriving DecidableEq, Repr

/-- `TelegramNotifier.__init__`: reads `TG_BOT_TOKEN` / `TG_CHAT_ID` and is
enabled only when both are truthy. -/
structure TelegramNotifier where
  bot_token : Option String
  chat_id : Option String
  enabled : Bool
deriving DecidableEq, Repr

def TelegramNotifier.init (env : Env) : TelegramNotifier :=
  let bot_token := env "TG_BOT_TOKEN"
  let chat_id := env "TG_CHAT_ID"
  { bot_token := bot_token, chat_id := chat_id,
    enabled := truthy bot_token && truthy chat_id }

/-- `TelegramNotifier.send_message`: returns `False` immediately when
disabled; otherwise POSTs to `sendMessage` and succeeds iff the status is
200.  The second component is the list of HTTP requests performed. -/
def TelegramNotifier.send_message (n : TelegramNotifier) (http : TgReq → Nat)
    (message : String) : Bool × List Ev :=
  if !n.enabled then (false, [])
  else
    let req := TgReq.sendMessage (optStr n.chat_id) message
    (http req == 200, [Ev.tgReqE req])

/-- `TelegramNotifier.send_photo`: disabled or missing file means `False`
with no request. -/
def TelegramNotifier.send_photo (n : TelegramNotifier) (http : TgReq → Nat)
    (fexists : String → Bool) (photo_path caption : String) : Bool × List Ev :=
  if !n.enabled then (false, [])
  else if !fexists photo_path then (false, [])
  else
    let req := TgReq.sendPhoto (optStr n.chat_id) photo_path caption
    (http req == 200, [Ev.tgReqE req])

/-- `TelegramNotifier.send_document`. -/
def TelegramNotifier.send_document (n : TelegramNotifier) (http : TgReq → Nat)
    (fexists : String → Bool) (file_path caption : String) : Bool × List Ev :=
  if !n.enabled then (false, [])
  else if !fexists file_path then (false, [])
  else
    let req := TgReq.sendDocument (optStr n.chat_id) file_path caption
    (http req == 200, [Ev.tgReqE req])

/-- The fields of the `AutoLogin` object set in `__init__`. -/
structure AutoLogin where
  username : Option String
  token : Option String
  debug : Bool
  screenshot_count : Nat
  screenshots : List String
  telegram : TelegramNotifier
  logs : List String
deriving DecidableEq, Repr

/-- `AutoLogin.__init__`. -/
def AutoLogin.init (env : Env) : AutoLogin :=
  { username := env "GH_USERNAME"
    token := env "GH_PAT"
    debug := lowerStr ((env "DEBUG_MODE").getD "true") == "true"
    screenshot_count := 0
    screenshots := []
    telegram := TelegramNotifier.init env
    logs := [] }

/-- The abstract browser: page states of type `σ`, with the Playwright
operations the script uses.  Operations that can raise return
`Except String σ` (the string is Python's `str(e)`). -/
structure Browser (σ : Type) where
  url : σ → String
  title : σ → Except String String
  content : σ → Except String String
  cookies : σ → List Cookie
  goto : σ → String → Nat → Except String σ
  waitLoad : σ → String → Nat → Except String σ
  sleep : σ → Nat → σ
  isVisible : σ → String → Nat → Bool
  click : σ → String → Except String σ
  fill : σ → String → String → Except String σ
  innerText : σ → String → Except String String

/-- The threaded run state: the `AutoLogin` object, the current page, and
the trace of observable events. -/
structure S (σ : Type) where
  a : AutoLogin
  page : σ
  events : List Ev

/-- The icon table of `AutoLogin.log`. -/
def icon (level : String) : String :=
  if level == "INFO" then "ℹ️"
  else if level == "SUCCESS" then "✅"
  else if level == "ERROR" then "❌"
  else if level == "WARN" then "⚠️"
  else if level == "STEP" then "🔹"
  else "•"

/-- `AutoLogin.log`: prints the iconed line and appends it to `self.logs`. -/
def log (s : S σ) (message level : String) : S σ :=
  let line := icon level ++ " " ++ message
  { s with a := { s.a with logs := s.a.logs ++ [line] },
           events := s.events ++ [Ev.logE level line] }

/-- `AutoLogin.screenshot`: bumps the counter, writes
`"{count:02d}_{name}.png"`, records it, and logs.  Returns the filename. -/
def screenshot (s : S σ) (name : String) : S σ × String :=
  let c := s.a.screenshot_count + 1
  let filename := pad2 c ++ "_" ++ name ++ ".png"
  let a' := { s.a with screenshot_count := c, screenshots := s.a.screenshots ++ [filename] }
  let s := { s with a := a', events := s.events ++ [Ev.shotE filename] }
  (log s ("截图已保存: " ++ filename) "INFO", filename)

/-- `AutoLogin.validate_credentials`. -/
def validate_credentials (s : S σ) : S σ × Bool :=
  if !truthy s.a.username then
    (log s "错误：未设置 GH_USERNAME" "ERROR", false)
  else if !truthy s.a.token then
    (log s "错误：未设置 GH_PAT" "ERROR", false)
  else
    let s := log s ("用户名: " ++ optStr s.a.username) "INFO"
    let tok := optStr s.a.token
    let s := log s ("Token: " ++ "**********" ++ "..." ++ dropStr tok (tok.length - 4)) "INFO"
    (s, true)

/-- `AutoLogin.find_and_click`: tries selectors in order, clicking the first
visible one; an exception while clicking moves on to the next selector. -/
def find_and_click (b : Browser σ) (s : S σ) :
    List String → String → S σ × Bool
  | [], _ => (s, false)
  | sel :: rest, description =>
    if b.isVisible s.page sel 3000 then
      match b.click s.page sel with
      | Except.error _ => find_and_click b s rest description
      | Except.ok pg =>
        (log { s with page := pg } ("已点击: " ++ description) "SUCCESS", true)
    else
      find_and_click b s rest description

/-- The error-banner selectors of `check_github_error`, in priority order. -/
def error_selectors : List String :=
  [".flash-error", ".flash.flash-error", "#js-flash-container .flash-error"]

/-- Auxiliary loop of `check_github_error`: first visible selector whose
text can be read wins; exceptions fall through to the next selector. -/
def checkErrorLoop (b : Browser σ) (pg : σ) : List String → Option String
  | [] => none
  | sel :: rest =>
    if b.isVisible pg sel 1000 then
      match b.innerText pg sel with
      | Except.ok t => some t
      | Except.error _ => checkErrorLoop b pg rest
    else checkErrorLoop b pg rest

/-- `AutoLogin.check_github_error`. -/
def check_github_error (b : Browser σ) (pg : σ) : Option String :=
  checkErrorLoop b pg error_selectors

/-- The four phrases of `check_device_verification`. -/
def device_keywords : List String :=
  ["verify your device", "device verification", "check your email", "verification code"]

/-- `AutoLogin.check_device_verification`: URL fragments first, then page
content (which can raise, propagating the exception). -/
def check_device_verification (b : Browser σ) (pg : σ) : Except String Bool :=
  if substr "sessions/verified-device" (b.url pg) || substr "device-verification" (b.url pg) then
    Except.ok true
  else
    match b.content pg with
    | Except.error e => Except.error e
    | Except.ok c =>
      Except.ok (device_keywords.any fun kw => substr kw (lowerStr c))

/-- `AutoLogin.check_2fa`: URL fragment or a visible OTP input (visibility
exceptions are caught and mean `False`). -/
def check_2fa (b : Browser σ) (pg : σ) : Bool :=
  if substr "two-factor" (b.url pg) then true
  else b.isVisible pg "input[name=\"otp\"], input[name=\"app_otp\"], #otp" 2000

/-- The tail of `login_github` from the `check_github_error` call on: the
four page-state checks in source order.  Each check is tagged in the event
trace as it is attempted. -/
def github_checks (b : Browser σ) (s : S σ) (current_url : String) :
    S σ × Except String Bool :=
  let s := { s with events := s.events ++ [Ev.checkE CheckTag.errorBanner] }
  match check_github_error b s.page with
  | some err => (log s ("GitHub 错误: " ++ err) "ERROR", Except.ok false)
  | none =>
    let s := { s with events := s.events ++ [Ev.checkE CheckTag.deviceVerification] }
    match check_device_verification b s.page with
    | Except.error e => (s, Except.error e)
    | Except.ok true =>
      let s := log s "需要设备验证！GitHub 检测到新设备，已发送验证邮件。" "ERROR"
      let s := log s "请先手动登录一次 GitHub 完成设备验证。" "WARN"
      let s := (screenshot s "github_设备验证").1
      (s, Except.ok false)
    | Except.ok false =>
      let s := { s with events := s.events ++ [Ev.checkE CheckTag.twoFactor] }
      if check_2fa b s.page then
        let s := log s "需要两步验证！此脚本无法自动处理 2FA。" "ERROR"
        let s := (screenshot s "github_两步验证").1
        (s, Except.ok false)
      else
        let s := { s with events := s.events ++ [Ev.checkE CheckTag.loginPage] }
        if substr "github.com/login" current_url || substr "github.com/session" current_url then
          let s := log s "仍在 GitHub 登录页面，登录可能失败" "WARN"
          match b.content s.page with
          | Except.error e => (s, Except.error e)
          | Except.ok page_content =>
            if substr "Incorrect username or password" page_content then
              (log s "用户名或密码错误！" "ERROR", Except.ok false)
            else if substr "too many" (lowerStr page_content) then
              (log s "登录尝试次数过多，已被限制" "ERROR", Except.ok false)
            else (s, Except.ok true)
        else (s, Except.ok true)

/-- `AutoLogin.login_github`: fill credentials, submit, wait, then run the
page-state checks.  Fill/click exceptions are caught and mean failure; the
`wait_for_load_state` exception propagates. -/
def login_github (b : Browser σ) (s : S σ) : S σ × Except String Bool :=
  let s := log s "正在登录 GitHub..." "STEP"
  let s := (screenshot s "github_登录页").1
  match b.fill s.page "input[name=\"login\"]" (optStr s.a.username) with
  | Except.error e => (log s ("输入凭据失败: " ++ e) "ERROR", Except.ok false)
  | Except.ok pg =>
    let s := log { s with page := pg } "已输入用户名" "INFO"
    match b.fill s.page "input[name=\"password\"]" (optStr s.a.token) with
    | Except.error e => (log s ("输入凭据失败: " ++ e) "ERROR", Except.ok false)
    | Except.ok pg =>
      let s := log { s with page := pg } "已输入 Token" "INFO"
      let s := (screenshot s "github_已填写凭据").1
      match b.click s.page "input[type=\"submit\"], button[type=\"submit\"]" with
      | Except.error e => (log s ("点击登录失败: " ++ e) "ERROR", Except.ok false)
      | Except.ok pg =>
        let s := log { s with page := pg } "已点击登录按钮" "INFO"
        let s := { s with page := b.sleep s.page 3 }
        match b.waitLoad s.page "networkidle" 30000 with
        | Except.error e => (s, Except.error e)
        | Except.ok pg =>
          let s := { s with page := pg }
          let s := (screenshot s "github_登录后").1
          let current_url := b.url s.page
          let s := log s ("当前页面: " ++ current_url) "INFO"
          github_checks b s current_url

/-- The config constants at the top of the script. -/
def CLAW_CLOUD_URL : String := "https://eu-central-1.run.claw.cloud"

def SIGNIN_URL : String := CLAW_CLOUD_URL ++ "/signin"

/-- The authorize-button selectors of `handle_oauth`. -/
def authorize_selectors : List String :=
  ["button[name=\"authorize\"]", "button:has-text(\"Authorize\")", "#js-oauth-authorize-btn"]

/-- `AutoLogin.handle_oauth`: only acts on the OAuth consent URL; the final
`wait_for_load_state` can raise. -/
def handle_oauth (b : Browser σ) (s : S σ) : S σ × Except String Unit :=
  if substr "github.com/login/oauth/authorize" (b.url s.page) then
    let s := log s "正在处理 OAuth 授权..." "STEP"
    let s := (screenshot s "oauth_授权页").1
    let s := (find_and_click b s authorize_selectors "授权按钮").1
    let s := { s with page := b.sleep s.page 3 }
    match b.waitLoad s.page "networkidle" 30000 with
    | Except.error e => (s, Except.error e)
    | Except.ok pg => ({ s with page := pg }, Except.ok ())
  else (s, Except.ok ())

/-- The success condition of the redirect waiter: the URL contains
`claw.cloud` and (case-insensitively) does not contain `signin`. -/
def succCond (u : String) : Bool :=
  substr "claw.cloud" u && !substr "signin" (lowerStr u)

/-- The GitHub login-page condition (`github.com/login` or
`github.com/session`). -/
def ghCond (u : String) : Bool :=
  substr "github.com/login" u || substr "github.com/session" u

/-- The OAuth-consent URL condition. -/
def oauthCond (u : String) : Bool :=
  substr "github.com/login/oauth/authorize" u

/-- The `for i in range(max_wait)` loop of `wait_redirect`; `fuel` is the
number of remaining iterations, `i` the Python loop index.  Each `page.url`
read is recorded as a `pollE` event. -/
def waitLoop (b : Browser σ) : Nat → Nat → S σ → S σ × Except String Bool
  | 0, _, s => (log s "等待重定向超时" "ERROR", Except.ok false)
  | fuel + 1, i, s =>
    let u := b.url s.page
    let s := { s with events := s.events ++ [Ev.pollE u] }
    if succCond u then
      (log s "成功重定向到 ClawCloud！" "SUCCESS", Except.ok true)
    else if decide (10 < i) && ghCond u then
      (log s "卡在 GitHub 登录页面" "ERROR", Except.ok false)
    else
      match (if oauthCond u then handle_oauth b s else (s, Except.ok ())) with
      | (s, Except.error e) => (s, Except.error e)
      | (s, Except.ok ()) =>
        let s := { s with page := b.sleep s.page 1 }
        let s := if i % 5 == 0 then log s ("  等待中... (" ++ toString i ++ "秒)") "INFO" else s
        waitLoop b fuel (i + 1) s

/-- `AutoLogin.wait_redirect`. -/
def wait_redirect (b : Browser σ) (s : S σ) (max_wait : Nat) :
    S σ × Except String Bool :=
  waitLoop b max_wait 0
    (log s ("等待重定向到 ClawCloud（最多 " ++ toString max_wait ++ " 秒）...") "STEP")

/-- `AutoLogin.verify_login`: domain / path checks, then the cookie filter;
on full success the filtered cookies are written to `cookies.json`
(recorded as a `cookieWriteE` event). -/
def verify_login (b : Browser σ) (s : S σ) : S σ × Except String Bool :=
  let current_url := b.url s.page
  match b.title s.page with
  | Except.error e => (s, Except.error e)
  | Except.ok title =>
    let s := log s ("最终页面: " ++ current_url) "INFO"
    let s := log s ("页面标题: " ++ title) "INFO"
    if !substr "claw.cloud" current_url then
      (log s "不在 ClawCloud 域名！" "ERROR", Except.ok false)
    else if substr "signin" (lowerStr current_url) || substr "login" (lowerStr current_url) then
      (log s "仍在登录页面，登录失败！" "ERROR", Except.ok false)
    else
      let cookies := b.cookies s.page
      let claw_cookies := cookies.filter fun c => substr "claw" c.domain
      if claw_cookies.length == 0 then
        (log s "未获取到 ClawCloud cookies！" "ERROR", Except.ok false)
      else
        let s := log s ("已获取 " ++ toString claw_cookies.length ++ " 个 ClawCloud cookies") "SUCCESS"
        let s := { s with events := s.events ++ [Ev.cookieWriteE claw_cookies] }
        (s, Except.ok true)

/-- The two keep-alive pages. -/
def keepalive_pages : List (String × String) :=
  [(CLAW_CLOUD_URL ++ "/", "控制台首页"), (CLAW_CLOUD_URL ++ "/apps", "应用列表")]

/-- The page loop of `keepalive`: navigation exceptions are caught with a
warning and the loop continues; a `signin` redirect aborts with `False`;
after the loop a final screenshot is taken and `True` returned. -/
def kaLoop (b : Browser σ) : List (String × String) → S σ → S σ × Bool
  | [], s => ((screenshot s "保活完成").1, true)
  | (url, name) :: rest, s =>
    match b.goto s.page url 30000 with
    | Except.error e => kaLoop b rest (log s ("访问 " ++ name ++ " 失败: " ++ e) "WARN")
    | Except.ok pg =>
      match b.waitLoad pg "networkidle" 15000 with
      | Except.error e =>
        kaLoop b rest (log { s with page := pg } ("访问 " ++ name ++ " 失败: " ++ e) "WARN")
      | Except.ok pg2 =>
        let s := { s with page := pg2 }
        if substr "signin" (lowerStr (b.url s.page)) then
          (log s ("访问 " ++ name ++ " 时被重定向到登录页！") "ERROR", false)
        else
          let s := log s ("已访问: " ++ name) "SUCCESS"
          kaLoop b rest { s with page := b.sleep s.page 2 }

/-- `AutoLogin.keepalive`. -/
def keepalive (b : Browser σ) (s : S σ) : S σ × Bool :=
  kaLoop b keepalive_pages (log s "正在访问页面保持账户活跃..." "STEP")

/-- The notification text built by `send_notification` (the timestamp is the
oracle input `now`). -/
def build_message (username : Option String) (now : String) (success : Bool)
    (error_msg : String) (logs : List String) : String :=
  let status := if success then "✅ 成功" else "❌ 失败"
  let message := "\n<b>🤖 ClawCloud 自动登录通知</b>\n\n<b>状态:</b> " ++ status ++
    "\n<b>用户:</b> " ++ optStr username ++ "\n<b>时间:</b> " ++ now ++ "\n"
  let message := if error_msg == "" then message else message ++ "\n<b>错误:</b> " ++ error_msg
  let recent := lastN 10 logs
  if recent.isEmpty then message
  else message ++ "\n\n<b>📋 最近日志:</b>\n" ++ String.intercalate "\n" recent

/-- The Telegram traffic of `send_notification` once past the `enabled`
guard: the message, the last screenshot as a photo, and on failure with
more than one screenshot all earlier screenshots as photos. -/
def snEvents (tg : TelegramNotifier) (username : Option String)
    (http : TgReq → Nat) (fexists : String → Bool) (now : String)
    (logs screenshots : List String) (success : Bool) (error_msg : String) :
    List Ev :=
  if !tg.enabled then []
  else
    let message := build_message username now success error_msg logs
    let evs := (tg.send_message http message).2
    evs ++
      match screenshots.getLast? with
      | none => []
      | some last =>
        let caption := if success then "最终截图" else "错误截图"
        (tg.send_photo http fexists last caption).2 ++
          (if !success && decide (1 < screenshots.length) then
            screenshots.dropLast.foldl
              (fun acc shot => acc ++ (tg.send_photo http fexists shot ("调试截图: " ++ shot)).2) []
          else [])

/-- `AutoLogin.send_notification`: the call itself is recorded as a
`notifyCallE` event; when the notifier is enabled the Telegram traffic of
`snEvents` follows. -/
def send_notification (http : TgReq → Nat) (fexists : String → Bool)
    (now : String) (s : S σ) (success : Bool) (error_msg : String) : S σ :=
  let evs := snEvents s.a.telegram s.a.username http fexists now s.a.logs
    s.a.screenshots success error_msg
  { s with events := s.events ++ [Ev.notifyCallE success error_msg] ++ evs }

/-- Step 1 of `run`: open the sign-in page, wait for network idle, sleep,
screenshot. -/
def openSignin (b : Browser σ) (s : S σ) : S σ × Except String Unit :=
  let s := log s "步骤 1: 打开 ClawCloud 登录页" "STEP"
  match b.goto s.page SIGNIN_URL 60000 with
  | Except.error e => (s, Except.error e)
  | Except.ok pg =>
    let s := { s with page := pg }
    match b.waitLoad s.page "networkidle" 30000 with
    | Except.error e => (s, Except.error e)
    | Except.ok pg =>
      let s := { s with page := b.sleep pg 2 }
      ((screenshot s "clawcloud_登录页").1, Except.ok ())

/-- Step 6 of `run`: keep-alive (its result is discarded) followed by the
success notification and exit code 0. -/
def afterVerify (b : Browser σ) (http : TgReq → Nat) (fexists : String → Bool)
    (now : String) (s : S σ) : S σ × Except String Nat :=
  let s := log s "步骤 6: 保持账户活跃" "STEP"
  let s := (keepalive b s).1
  let s := send_notification http fexists now s true ""
  (s, Except.ok 0)

/-- The already-logged-in branch of `run` (sign-in URL no longer contains
`signin`): verify, then either keep-alive + success, or failure exit 1. -/
def alreadyBranch (b : Browser σ) (http : TgReq → Nat) (fexists : String → Bool)
    (now : String) (s : S σ) : S σ × Except String Nat :=
  let s := log s "已经登录！" "SUCCESS"
  match verify_login b s with
  | (s, Except.error e) => (s, Except.error e)
  | (s, Except.ok true) =>
    let s := (keepalive b s).1
    let s := send_notification http fexists now s true ""
    (s, Except.ok 0)
  | (s, Except.ok false) =>
    let s := send_notification http fexists now s false "验证登录状态失败"
    (s, Except.ok 1)

/-- The GitHub-button selectors of step 2. -/
def github_selectors : List String :=
  ["button:has-text(\"GitHub\")", "a:has-text(\"GitHub\")",
   "button:has-text(\"Continue with GitHub\")", "[data-provider=\"github\"]"]

/-- Steps 4–6 of `run`: wait for the redirect, verify the login, then the
keep-alive tail. -/
def step4Flow (b : Browser σ) (http : TgReq → Nat) (fexists : String → Bool)
    (now : String) (s : S σ) : S σ × Except String Nat :=
  let s := log s "步骤 4: 等待重定向" "STEP"
  match wait_redirect b s 45 with
  | (s, Except.error e) => (s, Except.error e)
  | (s, Except.ok false) =>
    let s := (screenshot s "重定向失败").1
    let s := send_notification http fexists now s false "重定向到 ClawCloud 失败"
    (s, Except.ok 1)
  | (s, Except.ok true) =>
    let s := (screenshot s "重定向成功").1
    let s := log s "步骤 5: 验证登录状态" "STEP"
    match verify_login b s with
    | (s, Except.error e) => (s, Except.error e)
    | (s, Except.ok false) =>
      let s := (screenshot s "验证失败").1
      let s := send_notification http fexists now s false "登录验证失败"
      (s, Except.ok 1)
    | (s, Except.ok true) => afterVerify b http fexists now s

/-- Step 3 of `run`: authenticate with GitHub when the provider's login
page showed up, then continue with steps 4–6. -/
def step3Flow (b : Browser σ) (http : TgReq → Nat) (fexists : String → Bool)
    (now : String) (s : S σ) : S σ × Except String Nat :=
  match (if ghCond (b.url s.page) then login_github b s else (s, Except.ok true)) with
  | (s, Except.error e) => (s, Except.error e)
  | (s, Except.ok false) =>
    let s := (screenshot s "github_登录失败").1
    let s := send_notification http fexists now s false "GitHub 登录失败"
    (s, Except.ok 1)
  | (s, Except.ok true) => step4Flow b http fexists now s

/-- Steps 2–6 of `run`.  (In the page updates the browser page evolves:
after the sleep the page is `b.sleep … 3`, and after the load wait it is
the oracle's new page `pg`; the object fields `a`/`events` pass through
unchanged.) -/
def mainFlow (b : Browser σ) (http : TgReq → Nat) (fexists : String → Bool)
    (now : String) (s : S σ) : S σ × Except String Nat :=
  let s := log s "步骤 2: 点击 GitHub 登录按钮" "STEP"
  match find_and_click b s github_selectors "GitHub 按钮" with
  | (s, false) =>
    let s := log s "找不到 GitHub 登录按钮" "ERROR"
    let s := (screenshot s "找不到按钮").1
    let s := send_notification http fexists now s false "找不到 GitHub 登录按钮"
    (s, Except.ok 1)
  | (s2, true) =>
    let s3 : S σ := { s2 with page := b.sleep s2.page 3 }
    match b.waitLoad s3.page "networkidle" 30000 with
    | Except.error e => (s3, Except.error e)
    | Except.ok pg =>
      let s4 : S σ := { s2 with page := pg }
      let s5 := (screenshot s4 "点击github后").1
      let s6 := log s5 "步骤 3: GitHub 身份验证" "STEP"
      step3Flow b http fexists now s6

/-- The body of `run`'s `try:` block.  A `.error` result is a Python
exception reaching the `except Exception` handler; an `.ok code` result is
normal termination (`sys.exit(code)` or a plain `return`). -/
def runBody (b : Browser σ) (http : TgReq → Nat) (fexists : String → Bool)
    (now : String) (s : S σ) : S σ × Except String Nat :=
  match openSignin b s with
  | (s, Except.error e) => (s, Except.error e)
  | (s, Except.ok ()) =>
    if substr "signin" (lowerStr (b.url s.page)) then
      mainFlow b http fexists now s
    else
      alreadyBranch b http fexists now s

/-- The outcome of a full run: the process exit status and the final
state. -/
structure RunResult (σ : Type) where
  exitCode : Nat
  fin : S σ

/-- `AutoLogin.run` from a given initial state: credential validation
(failure notifies and exits 1 before the browser is launched), then the
browser session with the `except Exception` handler (log, screenshot,
notify, exit 1). -/
def runFrom (b : Browser σ) (http : TgReq → Nat) (fexists : String → Bool)
    (now : String) (s : S σ) : RunResult σ :=
  match validate_credentials s with
  | (s, false) =>
    let s := send_notification http fexists now s false "凭据未配置"
    { exitCode := 1, fin := s }
  | (s, true) =>
    let s := { s with events := s.events ++ [Ev.browserLaunchE] }
    match runBody b http fexists now s with
    | (s, Except.ok code) => { exitCode := code, fin := s }
    | (s, Except.error e) =>
      let s := log s ("发生异常: " ++ e) "ERROR"
      let s := (screenshot s "异常").1
      let s := send_notification http fexists now s false e
      { exitCode := 1, fin := s }

/-- A fresh run state over a given page. -/
def initS (env : Env) (pg0 : σ) : S σ :=
  { a := AutoLogin.init env, page := pg0, events := [] }

/-- The whole script: construct `AutoLogin` from the environment and run. -/
def run (env : Env) (b : Browser σ) (http : TgReq → Nat)
    (fexists : String → Bool) (now : String) (pg0 : σ) : RunResult σ :=
  runFrom b http fexists now (initS env pg0)

/-! ### Event-trace selectors and classifiers -/

/-- Select a notification attempt from an event. -/
def notifySel : Ev → Option (Bool × String)
  | Ev.notifyCallE b m => some (b, m)
  | _ => none

/-- All notification attempts in a trace, in order. -/
def notifyCalls (evs : List Ev) : List (Bool × String) :=
  evs.filterMap notifySel

/-- Select a `page.url` poll of the redirect waiter. -/
def pollSel : Ev → Option String
  | Ev.pollE u => some u
  | _ => none

/-- The polled URLs of a trace, in order. -/
def polls (evs : List Ev) : List String :=
  evs.filterMap pollSel

/-- Select a screenshot file. -/
def shotSel : Ev → Option String
  | Ev.shotE f => some f
  | _ => none

/-- The screenshot files of a trace, in order. -/
def shots (evs : List Ev) : List String :=
  evs.filterMap shotSel

/-- Select a Telegram photo upload (path, caption). -/
def photoSel : Ev → Option (String × String)
  | Ev.tgReqE (TgReq.sendPhoto _ p c) => some (p, c)
  | _ => none

/-- The Telegram photo uploads of a trace. -/
def tgPhotos (evs : List Ev) : List (String × String) :=
  evs.filterMap photoSel

/-- Select a `cookies.json` write. -/
def cwSel : Ev → Option (List Cookie)
  | Ev.cookieWriteE c => some c
  | _ => none

/-- The `cookies.json` writes of a trace. -/
def cookieWrites (evs : List Ev) : List (List Cookie) :=
  evs.filterMap cwSel

/-- The six top-level step-marker log lines of `run`, as events. -/
def stepMarkers : List Ev :=
  [Ev.logE "STEP" (icon "STEP" ++ " " ++ "步骤 1: 打开 ClawCloud 登录页"),
   Ev.logE "STEP" (icon "STEP" ++ " " ++ "步骤 2: 点击 GitHub 登录按钮"),
   Ev.logE "STEP" (icon "STEP" ++ " " ++ "步骤 3: GitHub 身份验证"),
   Ev.logE "STEP" (icon "STEP" ++ " " ++ "步骤 4: 等待重定向"),
   Ev.logE "STEP" (icon "STEP" ++ " " ++ "步骤 5: 验证登录状态"),
   Ev.logE "STEP" (icon "STEP" ++ " " ++ "步骤 6: 保持账户活跃")]

/-- Core control-flow events: notification attempts and the numbered
step-marker logs (STEP-level lines mentioning `步骤`). -/
def coreEv : Ev → Bool
  | Ev.notifyCallE _ _ => true
  | Ev.logE lv line => lv == "STEP" && substr "步骤" line
  | _ => false

/-- The core control-flow events of a trace. -/
def coreEvs (evs : List Ev) : List Ev :=
  evs.filter coreEv

/-- Quiet events: neither core control-flow events nor redirect polls.
Every helper step of the script only appends quiet events (plus, for the
redirect waiter, polls). -/
def quietEv : Ev → Bool
  | Ev.notifyCallE _ _ => false
  | Ev.pollE _ => false
  | Ev.logE lv line => !(lv == "STEP" && substr "步骤" line)
  | _ => true

/-- Browser-session events: anything that requires the browser-automation
context (launch, screenshots, URL polls, page-state checks, the cookie dump
taken from the browser context). -/
def browserEv : Ev → Bool
  | Ev.browserLaunchE => true
  | Ev.shotE _ => true
  | Ev.pollE _ => true
  | Ev.checkE _ => true
  | Ev.cookieWriteE _ => true
  | _ => false

/-- `s'` extends `s` by appending only quiet events. -/
def QuietExt (s s' : S σ) : Prop :=
  ∃ Δ, s'.events = s.events ++ Δ ∧ ∀ e ∈ Δ, quietEv e = true

/-- `s'` extends `s` by appending only quiet events and polls. -/
def PollExt (s s' : S σ) : Prop :=
  ∃ Δ, s'.events = s.events ++ Δ ∧ ∀ e ∈ Δ, quietEv e = true ∨ (pollSel e).isSome

/-- The externally observable outcome of a run: exit code, printed log
lines, screenshot files and counter, and the full event trace.  The
`debug` flag is internal object state, not an observable. -/
def observables (r : RunResult σ) : Nat × List String × List String × Nat × List Ev :=
  (r.exitCode, r.fin.a.logs, r.fin.a.screenshots, r.fin.a.screenshot_count, r.fin.events)

/-- Overwrite the `debug` flag of the threaded state. -/
def setDebug (d : Bool) (s : S σ) : S σ :=
  { s with a := { s.a with debug := d } }

/-! ### Concrete environments and scripted browsers (used by witnesses and
counterexamples) -/

/-- An environment with credentials and Telegram configured. -/
def envFull : Env := fun k =>
  if k = "GH_USERNAME" then some "octo"
  else if k = "GH_PAT" then some "ghp_secret_token"
  else if k = "TG_BOT_TOKEN" then some "bot42"
  else if k = "TG_CHAT_ID" then some "777"
  else none

/-- `envFull` without `GH_USERNAME`. -/
def envNoUser : Env := fun k =>
  if k = "GH_USERNAME" then none else envFull k

/-- `envFull` without `GH_PAT`. -/
def envNoPat : Env := fun k =>
  if k = "GH_PAT" then none else envFull k

/-- Credentials only, no Telegram configuration. -/
def envNoTG : Env := fun k =>
  if k = "GH_USERNAME" then some "octo"
  else if k = "GH_PAT" then some "ghp_secret_token"
  else none

/-- `envFull` with `DEBUG_MODE` explicitly disabled. -/
def envDbgOff : Env := fun k =>
  if k = "DEBUG_MODE" then some "false" else envFull k

/-- A Telegram API oracle that always answers 200. -/
def httpOk : TgReq → Nat := fun _ => 200

/-- A filesystem oracle on which every path exists. -/
def allFiles : String → Bool := fun _ => true

/-- A browser stuck on the GitHub login page: every page state shows the
provider's login URL. -/
def bGH : Browser Unit :=
  { url := fun _ => "https://github.com/login"
    title := fun _ => Except.ok "Sign in to GitHub"
    content := fun _ => Except.ok ""
    cookies := fun _ => []
    goto := fun _ _ _ => Except.ok ()
    waitLoad := fun _ _ _ => Except.ok ()
    sleep := fun t _ => t
    isVisible := fun _ _ _ => false
    click := fun _ _ => Except.ok ()
    fill := fun _ _ _ => Except.ok ()
    innerText := fun _ _ => Except.error "detached" }

/-- A browser logged in on the ClawCloud console, with one ClawCloud cookie
and one GitHub cookie. -/
def bClaw : Browser Unit :=
  { url := fun _ => "https://eu-central-1.run.claw.cloud/dashboard"
    title := fun _ => Except.ok "ClawCloud"
    content := fun _ => Except.ok ""
    cookies := fun _ => [{ name := "sess", value := "x", domain := "claw.cloud" },
                         { name := "gh", value := "y", domain := "github.com" }]
    goto := fun _ _ _ => Except.ok ()
    waitLoad := fun _ _ _ => Except.ok ()
    sleep := fun t _ => t
    isVisible := fun _ _ _ => false
    click := fun _ _ => Except.ok ()
    fill := fun _ _ _ => Except.ok ()
    innerText := fun _ _ => Except.error "detached" }

/-- A browser showing a visible GitHub error banner. -/
def bBanner : Browser Unit :=
  { url := fun _ => "https://github.com/session"
    title := fun _ => Except.ok "Sign in to GitHub"
    content := fun _ => Except.ok ""
    cookies := fun _ => []
    goto := fun _ _ _ => Except.ok ()
    waitLoad := fun _ _ _ => Except.ok ()
    sleep := fun t _ => t
    isVisible := fun _ _ _ => true
    click := fun _ _ => Except.ok ()
    fill := fun _ _ _ => Except.ok ()
    innerText := fun _ _ => Except.ok "Incorrect username or password." }

/-- A browser whose page states are instants `t : Nat`; navigation advances
time and after the first navigation every URL is an off-domain page without
`signin`. -/
def bWander : Browser Nat :=
  { url := fun t => if t = 0 then SIGNIN_URL else "https://example.com/welcome"
    title := fun _ => Except.ok "Welcome"
    content := fun _ => Except.ok ""
    cookies := fun _ => []
    goto := fun t _ _ => Except.ok (t + 1)
    waitLoad := fun t _ _ => Except.ok t
    sleep := fun t _ => t
    isVisible := fun _ _ _ => false
    click := fun t _ => Except.ok (t + 1)
    fill := fun t _ _ => Except.ok t
    innerText := fun _ _ => Except.error "detached" }

/-- A browser on which every page is the ClawCloud sign-in page: keep-alive
visits are always bounced to the login screen. -/
def bBounce : Browser Nat :=
  { url := fun _ => SIGNIN_URL
    title := fun _ => Except.ok "Sign in"
    content := fun _ => Except.ok ""
    cookies := fun _ => []
    goto := fun t _ _ => Except.ok (t + 1)
    waitLoad := fun t _ _ => Except.ok t
    sleep := fun t _ => t
    isVisible := fun _ _ _ => false
    click := fun t _ => Except.ok (t + 1)
    fill := fun t _ _ => Except.ok t
    innerText := fun _ _ => Except.error "detached" }

/-! ## Trace algebra -/

theorem notifyCalls_append (l₁ l₂ : List Ev) :
    notifyCalls (l₁ ++ l₂) = notifyCalls l₁ ++ notifyCalls l₂ :=
  List.filterMap_append l₁ l₂ notifySel

theorem polls_append (l₁ l₂ : List Ev) :
    polls (l₁ ++ l₂) = polls l₁ ++ polls l₂ :=
  List.filterMap_append l₁ l₂ pollSel

theorem shots_append (l₁ l₂ : List Ev) :
    shots (l₁ ++ l₂) = shots l₁ ++ shots l₂ :=
  List.filterMap_append l₁ l₂ shotSel

theorem cookieWrites_append (l₁ l₂ : List Ev) :
    cookieWrites (l₁ ++ l₂) = cookieWrites l₁ ++ cookieWrites l₂ :=
  List.filterMap_append l₁ l₂ cwSel

theorem tgPhotos_append (l₁ l₂ : List Ev) :
    tgPhotos (l₁ ++ l₂) = tgPhotos l₁ ++ tgPhotos l₂ :=
  List.filterMap_append l₁ l₂ photoSel

theorem coreEvs_append (l₁ l₂ : List Ev) :
    coreEvs (l₁ ++ l₂) = coreEvs l₁ ++ coreEvs l₂ :=
  List.filter_append l₁ l₂

theorem quiet_pollSel {e : Ev} (h : quietEv e = true) : pollSel e = none := by
  cases e <;> simp_all [quietEv, pollSel]

theorem quiet_notifySel {e : Ev} (h : quietEv e = true) : notifySel e = none := by
  cases e <;> simp_all [quietEv, notifySel]

theorem quiet_coreEv {e : Ev} (h : quietEv e = true) : coreEv e = false := by
  cases e <;> simp_all [quietEv, coreEv]
  tauto

theorem polls_of_quiet {Δ : List Ev} (h : ∀ e ∈ Δ, quietEv e = true) :
    polls Δ = [] :=
  List.filterMap_eq_nil_iff.mpr fun e he => quiet_pollSel (h e he)

theorem notifyCalls_of_quiet {Δ : List Ev} (h : ∀ e ∈ Δ, quietEv e = true) :
    notifyCalls Δ = [] :=
  List.filterMap_eq_nil_iff.mpr fun e he => quiet_notifySel (h e he)

theorem coreEvs_of_quiet {Δ : List Ev} (h : ∀ e ∈ Δ, quietEv e = true) :
    coreEvs Δ = [] :=
  List.filter_eq_nil_iff.mpr fun e he => by simp [quiet_coreEv (h e he)]

theorem quietExt_refl (s : S σ) : QuietExt s s :=
  ⟨[], by simp, by simp⟩

theorem quietExt_trans {s s' s'' : S σ} (h : QuietExt s s') (h' : QuietExt s' s'') :
    QuietExt s s'' := by
  obtain ⟨Δ, hΔ, hq⟩ := h
  obtain ⟨Δ', hΔ', hq'⟩ := h'
  refine ⟨Δ ++ Δ', by simp [hΔ', hΔ], ?_⟩
  intro e he
  rcases List.mem_append.1 he with h1 | h1
  · exact hq e h1
  · exact hq' e h1

theorem quietExt_of_events_eq {s s' : S σ} (h : s'.events = s.events) :
    QuietExt s s' :=
  ⟨[], by simp [h], by simp⟩

theorem QuietExt.events_ext {s s' : S σ} (h : QuietExt s s') :
    ∃ Δ, s'.events = s.events ++ Δ := by
  obtain ⟨Δ, hΔ, _⟩ := h
  exact ⟨Δ, hΔ⟩

theorem QuietExt.polls_eq {s s' : S σ} (h : QuietExt s s') :
    polls s'.events = polls s.events := by
  obtain ⟨Δ, hΔ, hq⟩ := h
  simp [hΔ, polls_append, polls_of_quiet hq]

theorem QuietExt.notifyCalls_eq {s s' : S σ} (h : QuietExt s s') :
    notifyCalls s'.events = notifyCalls s.events := by
  obtain ⟨Δ, hΔ, hq⟩ := h
  simp [hΔ, notifyCalls_append, notifyCalls_of_quiet hq]

theorem QuietExt.coreEvs_eq {s s' : S σ} (h : QuietExt s s') :
    coreEvs s'.events = coreEvs s.events := by
  obtain ⟨Δ, hΔ, hq⟩ := h
  simp [hΔ, coreEvs_append, coreEvs_of_quiet hq]

theorem QuietExt.mem {s s' : S σ} (h : QuietExt s s') {e : Ev}
    (he : e ∈ s.events) : e ∈ s'.events := by
  obtain ⟨Δ, hΔ, _⟩ := h
  simp [hΔ, List.mem_append, he]

/-! ## Event characterisation of the helper steps -/

theorem log_events (s : S σ) (m lv : String) :
    (log s m lv).events = s.events ++ [Ev.logE lv (icon lv ++ " " ++ m)] := rfl

theorem quietExt_log {s : S σ} {m lv : String}
    (h : quietEv (Ev.logE lv (icon lv ++ " " ++ m)) = true) :
    QuietExt s (log s m lv) := by
  refine ⟨[Ev.logE lv (icon lv ++ " " ++ m)], log_events s m lv, ?_⟩
  intro e he
  simp at he
  simp [he, h]

theorem quietEv_logE_of_ne {lv line : String} (h : (lv == "STEP") = false) :
    quietEv (Ev.logE lv line) = true := by
  simp [quietEv, h]

theorem quietExt_log_of_ne {s : S σ} {m lv : String} (h : (lv == "STEP") = false) :
    QuietExt s (log s m lv) :=
  quietExt_log (quietEv_logE_of_ne h)

theorem screenshot_events (s : S σ) (n : String) :
    (screenshot s n).1.events = s.events ++
      [Ev.shotE (pad2 (s.a.screenshot_count + 1) ++ "_" ++ n ++ ".png"),
       Ev.logE "INFO" (icon "INFO" ++ " " ++
         ("截图已保存: " ++ (pad2 (s.a.screenshot_count + 1) ++ "_" ++ n ++ ".png")))] := by
  simp [screenshot, log_events]

theorem quietExt_screenshot (s : S σ) (n : String) :
    QuietExt s (screenshot s n).1 := by
  refine ⟨_, screenshot_events s n, ?_⟩
  intro e he
  simp at he
  rcases he with h | h <;> simp [h, quietEv]

theorem quietExt_addQuiet {s : S σ} {ev : Ev} (h : quietEv ev = true) :
    QuietExt s { s with events := s.events ++ [ev] } := by
  refine ⟨[ev], rfl, ?_⟩
  intro e he
  simp at he
  simp [he, h]

theorem quietExt_fac (b : Browser σ) (d : String) :
    ∀ (sels : List String) (s : S σ), QuietExt s (find_and_click b s sels d).1 := by
  intro sels
  induction sels with
  | nil => intro s; exact quietExt_refl s
  | cons sel rest ih =>
    intro s
    rw [find_and_click]
    split
    · cases hc : b.click s.page sel with
      | error e => simpa [hc] using ih s
      | ok pg =>
        simp only [hc]
        exact quietExt_trans (quietExt_of_events_eq rfl) (quietExt_log_of_ne (by decide))
    · exact ih s

theorem quietExt_validate (s : S σ) : QuietExt s (validate_credentials s).1 := by
  unfold validate_credentials
  split
  · exact quietExt_log_of_ne (by decide)
  · split
    · exact quietExt_log_of_ne (by decide)
    · exact quietExt_trans (quietExt_log_of_ne (by decide)) (quietExt_log_of_ne (by decide))

theorem quietExt_setPage (s : S σ) (pg : σ) : QuietExt s { s with page := pg } :=
  ⟨[], by simp, by simp⟩

theorem quietExt_oauth (b : Browser σ) (s : S σ) : QuietExt s (handle_oauth b s).1 := by
  simp only [handle_oauth]
  split
  · split
    · exact quietExt_trans (quietExt_log (by decide))
        (quietExt_trans (quietExt_screenshot _ _)
          (quietExt_trans (quietExt_fac _ _ _ _) (quietExt_setPage _ _)))
    · exact quietExt_trans (quietExt_log (by decide))
        (quietExt_trans (quietExt_screenshot _ _)
          (quietExt_trans (quietExt_fac _ _ _ _)
            (quietExt_trans (quietExt_setPage _ _) (quietExt_setPage _ _))))
  · exact quietExt_refl s

theorem quietExt_github_checks (b : Browser σ) (s : S σ) (u : String) :
    QuietExt s (github_checks b s u).1 := by
  simp only [github_checks]
  split
  · exact quietExt_trans (quietExt_addQuiet (by decide)) (quietExt_log_of_ne (by decide))
  · split
    · exact quietExt_trans (quietExt_addQuiet (by decide)) (quietExt_addQuiet (by decide))
    · exact quietExt_trans (quietExt_addQuiet (by decide))
        (quietExt_trans (quietExt_addQuiet (by decide))
          (quietExt_trans (quietExt_log_of_ne (by decide))
            (quietExt_trans (quietExt_log_of_ne (by decide)) (quietExt_screenshot _ _))))
    · split
      · exact quietExt_trans (quietExt_addQuiet (by decide))
          (quietExt_trans (quietExt_addQuiet (by decide))
            (quietExt_trans (quietExt_addQuiet (by decide))
              (quietExt_trans (quietExt_log_of_ne (by decide)) (quietExt_screenshot _ _))))
      · split
        · split
          · exact quietExt_trans (quietExt_addQuiet (by decide))
              (quietExt_trans (quietExt_addQuiet (by decide))
                (quietExt_trans (quietExt_addQuiet (by decide))
                  (quietExt_trans (quietExt_addQuiet (by decide)) (quietExt_log_of_ne (by decide)))))
          · split
            · exact quietExt_trans (quietExt_addQuiet (by decide))
                (quietExt_trans (quietExt_addQuiet (by decide))
                  (quietExt_trans (quietExt_addQuiet (by decide))
                    (quietExt_trans (quietExt_addQuiet (by decide))
                      (quietExt_trans (quietExt_log_of_ne (by decide)) (quietExt_log_of_ne (by decide))))))
            · split
              · exact quietExt_trans (quietExt_addQuiet (by decide))
                  (quietExt_trans (quietExt_addQuiet (by decide))
                    (quietExt_trans (quietExt_addQuiet (by decide))
                      (quietExt_trans (quietExt_addQuiet (by decide))
                        (quietExt_trans (quietExt_log_of_ne (by decide)) (quietExt_log_of_ne (by decide))))))
              · exact quietExt_trans (quietExt_addQuiet (by decide))
                  (quietExt_trans (quietExt_addQuiet (by decide))
                    (quietExt_trans (quietExt_addQuiet (by decide))
                      (quietExt_trans (quietExt_addQuiet (by decide)) (quietExt_log_of_ne (by decide)))))
        · exact quietExt_trans (quietExt_addQuiet (by decide))
            (quietExt_trans (quietExt_addQuiet (by decide))
              (quietExt_trans (quietExt_addQuiet (by decide)) (quietExt_addQuiet (by decide))))

theorem quietExt_login_github (b : Browser σ) (s : S σ) :
    QuietExt s (login_github b s).1 := by
  simp only [login_github]
  split
  · exact quietExt_trans (quietExt_log (by decide))
      (quietExt_trans (quietExt_screenshot _ _) (quietExt_log_of_ne (by decide)))
  · split
    · exact quietExt_trans (quietExt_log (by decide))
        (quietExt_trans (quietExt_screenshot _ _)
          (quietExt_trans (quietExt_setPage _ _)
            (quietExt_trans (quietExt_log_of_ne (by decide)) (quietExt_log_of_ne (by decide)))))
    · split
      · exact quietExt_trans (quietExt_log (by decide))
          (quietExt_trans (quietExt_screenshot _ _)
            (quietExt_trans (quietExt_setPage _ _)
              (quietExt_trans (quietExt_log_of_ne (by decide))
                (quietExt_trans (quietExt_setPage _ _)
                  (quietExt_trans (quietExt_log_of_ne (by decide))
                    (quietExt_trans (quietExt_screenshot _ _) (quietExt_log_of_ne (by decide))))))))
      · split
        · exact quietExt_trans (quietExt_log (by decide))
            (quietExt_trans (quietExt_screenshot _ _)
              (quietExt_trans (quietExt_setPage _ _)
                (quietExt_trans (quietExt_log_of_ne (by decide))
                  (quietExt_trans (quietExt_setPage _ _)
                    (quietExt_trans (quietExt_log_of_ne (by decide))
                      (quietExt_trans (quietExt_screenshot _ _)
                        (quietExt_trans (quietExt_setPage _ _)
                          (quietExt_trans (quietExt_log_of_ne (by decide)) (quietExt_setPage _ _)))))))))
        · exact quietExt_trans (quietExt_log (by decide))
            (quietExt_trans (quietExt_screenshot _ _)
              (quietExt_trans (quietExt_setPage _ _)
                (quietExt_trans (quietExt_log_of_ne (by decide))
                  (quietExt_trans (quietExt_setPage _ _)
                    (quietExt_trans (quietExt_log_of_ne (by decide))
                      (quietExt_trans (quietExt_screenshot _ _)
                        (quietExt_trans (quietExt_setPage _ _)
                          (quietExt_trans (quietExt_log_of_ne (by decide))
                            (quietExt_trans (quietExt_setPage _ _)
                              (quietExt_trans (quietExt_setPage _ _)
                                (quietExt_trans (quietExt_screenshot _ _)
                                  (quietExt_trans (quietExt_log_of_ne (by decide))
                                    (quietExt_github_checks _ _ _)))))))))))))

theorem quietExt_verify_login (b : Browser σ) (s : S σ) :
    QuietExt s (verify_login b s).1 := by
  simp only [verify_login]
  split
  · exact quietExt_refl _
  · split
    · exact quietExt_trans (quietExt_log_of_ne (by decide))
        (quietExt_trans (quietExt_log_of_ne (by decide)) (quietExt_log_of_ne (by decide)))
    · split
      · exact quietExt_trans (quietExt_log_of_ne (by decide))
          (quietExt_trans (quietExt_log_of_ne (by decide)) (quietExt_log_of_ne (by decide)))
      · split
        · exact quietExt_trans (quietExt_log_of_ne (by decide))
            (quietExt_trans (quietExt_log_of_ne (by decide)) (quietExt_log_of_ne (by decide)))
        · exact quietExt_trans (quietExt_log_of_ne (by decide))
            (quietExt_trans (quietExt_log_of_ne (by decide))
              (quietExt_trans (quietExt_log_of_ne (by decide)) (quietExt_addQuiet rfl)))

theorem quietExt_kaLoop (b : Browser σ) :
    ∀ (ps : List (String × String)) (s : S σ), QuietExt s (kaLoop b ps s).1 := by
  intro ps
  induction ps with
  | nil => intro s; exact quietExt_screenshot s _
  | cons p rest ih =>
    intro s
    obtain ⟨url, name⟩ := p
    simp only [kaLoop]
    split
    · exact quietExt_trans (quietExt_log_of_ne (by decide)) (ih _)
    · split
      · exact quietExt_trans (quietExt_log_of_ne (by decide)) (ih _)
      · split
        · exact quietExt_trans (quietExt_setPage _ _) (quietExt_log_of_ne (by decide))
        · exact quietExt_trans (quietExt_setPage _ _)
            (quietExt_trans (quietExt_log_of_ne (by decide))
              (quietExt_trans (quietExt_setPage _ _) (ih _)))

theorem quietExt_keepalive (b : Browser σ) (s : S σ) :
    QuietExt s (keepalive b s).1 :=
  quietExt_trans (quietExt_log (by decide)) (quietExt_kaLoop b keepalive_pages _)

/-! ## The redirect waiter -/

theorem quietExt_iteLog (s : S σ) (c : Prop) [Decidable c] (m : String) :
    QuietExt s (if c then log s m "INFO" else s) := by
  split
  · exact quietExt_log_of_ne (by decide)
  · exact quietExt_refl s

theorem quietExt_oauthStep (b : Browser σ) (s : S σ) (c : Prop) [Decidable c] :
    QuietExt s (if c then handle_oauth b s else (s, Except.ok ())).1 := by
  split
  · exact quietExt_oauth b s
  · exact quietExt_refl s

theorem addPoll_events (s : S σ) (u : String) :
    ({ s with events := s.events ++ [Ev.pollE u] } : S σ).events = s.events ++ [Ev.pollE u] := rfl

theorem polls_pollE (u : String) : polls [Ev.pollE u] = [u] := rfl

theorem polls_log (s : S σ) (m l : String) :
    polls (log s m l).events = polls s.events := by
  simp [log_events, polls_append, polls, pollSel]

theorem polls_addPoll (s : S σ) (u : String) :
    polls ({ s with events := s.events ++ [Ev.pollE u] } : S σ).events = polls s.events ++ [u] := by
  simp [polls, polls_append, pollSel]

/-- One iteration of the redirect-waiter loop either returns at the current
poll or recurses; the polled URLs of the result extend those of the input,
and the loop answers `ok true` exactly when some polled URL satisfies the
success condition. -/
theorem waitLoop_true_iff (b : Browser σ) :
    ∀ (fuel i : Nat) (s : S σ),
      ∃ P, polls (waitLoop b fuel i s).1.events = polls s.events ++ P ∧
        ((waitLoop b fuel i s).2 = Except.ok true ↔ ∃ u ∈ P, succCond u = true) := by
  intro fuel
  induction fuel with
  | zero =>
    intro i s
    refine ⟨[], ?_, ?_⟩
    · simp [waitLoop, polls_log]
    · simp [waitLoop]
  | succ fuel ih =>
    intro i s
    simp only [waitLoop]
    by_cases hsucc : succCond (b.url s.page) = true
    · refine ⟨[b.url s.page], ?_, ?_⟩
      · simp [hsucc, polls_log, polls_append, polls_pollE]
      · simp [hsucc]
    · rw [if_neg (by simp [hsucc])]
      by_cases hstuck : (decide (10 < i) && ghCond (b.url s.page)) = true
      · rw [if_pos hstuck]
        refine ⟨[b.url s.page], ?_, ?_⟩
        · simp [polls_log, polls_append, polls_pollE]
        · simp [hsucc]
      · rw [if_neg hstuck]
        rcases hoa : (if oauthCond (b.url s.page) = true then
            handle_oauth b { s with events := s.events ++ [Ev.pollE (b.url s.page)] }
          else ({ s with events := s.events ++ [Ev.pollE (b.url s.page)] }, Except.ok ()))
          with ⟨s₂, r₂⟩
        have hq2 : polls s₂.events = polls s.events ++ [b.url s.page] := by
          have := (quietExt_oauthStep b
            { s with events := s.events ++ [Ev.pollE (b.url s.page)] }
            (oauthCond (b.url s.page) = true)).polls_eq
          rw [hoa] at this
          simpa [polls_append, polls_pollE] using this
        cases r₂ with
        | error e =>
          refine ⟨[b.url s.page], ?_, ?_⟩
          · simp [hoa, hq2]
          · simp [hoa, hsucc]
        | ok u =>
          obtain ⟨P', hP', hiff⟩ := ih (i + 1)
            (if i % 5 == 0 then
              log { s₂ with page := b.sleep s₂.page 1 } ("  等待中... (" ++ toString i ++ "秒)") "INFO"
             else { s₂ with page := b.sleep s₂.page 1 })
          have hq4 : polls (if i % 5 == 0 then
              log { s₂ with page := b.sleep s₂.page 1 } ("  等待中... (" ++ toString i ++ "秒)") "INFO"
             else { s₂ with page := b.sleep s₂.page 1 }).events = polls s₂.events := by
            have h₁ := (quietExt_iteLog ({ s₂ with page := b.sleep s₂.page 1 })
              (i % 5 == 0) ("  等待中... (" ++ toString i ++ "秒)")).polls_eq
            simpa using h₁
          refine ⟨b.url s.page :: P', ?_, ?_⟩
          · simp only [hoa]
            rw [hP', hq4, hq2]
            simp
          · simp only [hoa]
            rw [hiff]
            constructor
            · intro ⟨u', hu', hsu⟩
              exact ⟨u', by simp [hu'], hsu⟩
            · intro ⟨u', hu', hsu⟩
              rcases List.mem_cons.1 hu' with h | h
              · exact absurd (h ▸ hsu) (by simp [hsucc])
              · exact ⟨u', h, hsu⟩

theorem polls_stepState (s₂ : S σ) (pg : σ) (c : Prop) [Decidable c] (m : String) :
    polls (if c then log { s₂ with page := pg } m "INFO"
           else { s₂ with page := pg } : S σ).events = polls s₂.events := by
  split <;> simp [polls_log]

/-- If every reachable page shows the GitHub login URL (and never the
success or OAuth conditions), the loop fails at index 11: exactly
`12 - i` further polls happen from index `i ≤ 11`. -/
theorem waitLoop_stuck (b : Browser σ)
    (H : ∀ pg : σ, ghCond (b.url pg) = true ∧ succCond (b.url pg) = false ∧
      oauthCond (b.url pg) = false) :
    ∀ (fuel i : Nat) (s : S σ), i ≤ 11 → 12 ≤ fuel + i →
      (waitLoop b fuel i s).2 = Except.ok false ∧
      (polls (waitLoop b fuel i s).1.events).length = (polls s.events).length + (12 - i) := by
  intro fuel
  induction fuel with
  | zero => intro i s h1 h2; omega
  | succ fuel ih =>
    intro i s hi hfi
    obtain ⟨hg, hs, ho⟩ := H s.page
    simp only [waitLoop]
    rw [if_neg (by simp [hs])]
    by_cases h10 : 10 < i
    · rw [if_pos (by simp [h10, hg])]
      refine ⟨rfl, ?_⟩
      have hi11 : i = 11 := by omega
      simp [polls_log, polls_append, polls_pollE, hi11]
    · rw [if_neg (by simp [h10]), if_neg (by simp [ho])]
      refine ⟨(ih (i + 1) _ (by omega) (by omega)).1, ?_⟩
      rw [(ih (i + 1) _ (by omega) (by omega)).2, polls_stepState, polls_addPoll]
      simp only [List.length_append, List.length_cons, List.length_nil]
      omega

/-- If no terminating condition ever holds, the loop consumes all its fuel,
polling once per iteration, and fails. -/
theorem waitLoop_exhaust (b : Browser σ)
    (H : ∀ pg : σ, succCond (b.url pg) = false ∧ ghCond (b.url pg) = false ∧
      oauthCond (b.url pg) = false) :
    ∀ (fuel i : Nat) (s : S σ),
      (waitLoop b fuel i s).2 = Except.ok false ∧
      (polls (waitLoop b fuel i s).1.events).length = (polls s.events).length + fuel := by
  intro fuel
  induction fuel with
  | zero =>
    intro i s
    exact ⟨rfl, by simp [waitLoop, polls_log]⟩
  | succ fuel ih =>
    intro i s
    obtain ⟨hs, hg, ho⟩ := H s.page
    simp only [waitLoop]
    rw [if_neg (by simp [hs]), if_neg (by simp [hg]), if_neg (by simp [ho])]
    refine ⟨(ih (i + 1) _).1, ?_⟩
    rw [(ih (i + 1) _).2, polls_stepState, polls_addPoll]
    simp only [List.length_append, List.length_cons, List.length_nil]
    omega

/-- C1 (amended).  The redirect waiter `wait_redirect` returns success iff
some polled URL contains `claw.cloud` and (case-insensitively) excludes
`signin`.  When the provider's login URL (`github.com/login` or
`github.com/session`) shows on every page and neither the success nor the
OAuth-consent condition ever holds, it returns failure at iteration index
11 — after exactly 12 polls, not after the configured number of
iterations — and only when no terminating condition ever holds does it
poll exactly `max_wait` times before failing. -/
theorem C1_redirect_waiter (σ : Type) (b : Browser σ) (s : S σ) (n : Nat)
    (h0 : polls s.events = []) :
    ((wait_redirect b s n).2 = Except.ok true ↔
      ∃ u ∈ polls (wait_redirect b s n).1.events, succCond u = true) ∧
    ((∀ pg : σ, ghCond (b.url pg) = true ∧ succCond (b.url pg) = false ∧
        oauthCond (b.url pg) = false) → 12 ≤ n →
      (wait_redirect b s n).2 = Except.ok false ∧
      (polls (wait_redirect b s n).1.events).length = 12) ∧
    ((∀ pg : σ, succCond (b.url pg) = false ∧ ghCond (b.url pg) = false ∧
        oauthCond (b.url pg) = false) →
      (wait_redirect b s n).2 = Except.ok false ∧
      (polls (wait_redirect b s n).1.events).length = n) := by
  refine ⟨?_, ?_, ?_⟩
  · obtain ⟨P, hP, hiff⟩ := waitLoop_true_iff b n 0
      (log s ("等待重定向到 ClawCloud（最多 " ++ toString n ++ " 秒）...") "STEP")
    rw [wait_redirect, hiff, hP, polls_log, h0]
    simp
  · intro H hn
    obtain ⟨h1, h2⟩ := waitLoop_stuck b H n 0
      (log s ("等待重定向到 ClawCloud（最多 " ++ toString n ++ " 秒）...") "STEP")
      (by omega) (by omega)
    rw [wait_redirect, h1, h2, polls_log, h0]
    simp
  · intro H
    obtain ⟨h1, h2⟩ := waitLoop_exhaust b H n 0
      (log s ("等待重定向到 ClawCloud（最多 " ++ toString n ++ " 秒）...") "STEP")
    rw [wait_redirect, h1, h2, polls_log, h0]
    simp

/-- Witness for C1: on a browser stuck on `github.com/login`, the waiter
with its default bound 45 fails after exactly 12 polls. -/
theorem C1_redirect_waiter_witness :
    (wait_redirect bGH (initS envNoTG ()) 45).2 = Except.ok false ∧
    (polls (wait_redirect bGH (initS envNoTG ()) 45).1.events).length = 12 :=
  (C1_redirect_waiter Unit bGH (initS envNoTG ()) 45 (by decide)).2.1
    (fun x => by cases x; exact ⟨by decide, by decide, by decide⟩) (by decide)

/-- Counterexample to C1 as stated: with the GitHub login URL persisting,
the waiter does not fail "after exactly the configured number of
iterations" (45): it fails after 12 polls. -/
theorem C1_counterexample :
    ghCond (bGH.url ()) = true ∧ succCond (bGH.url ()) = false ∧
    (wait_redirect bGH (initS envFull ()) 45).2 = Except.ok false ∧
    (polls (wait_redirect bGH (initS envFull ()) 45).1.events).length = 12 ∧
    (12 : Nat) ≠ 45 := by
  exact ⟨by decide, by decide, rfl, by decide, by decide⟩

/-! ## Cookie persistence (verify_login) -/

theorem cookieWrites_log (s : S σ) (m l : String) :
    cookieWrites (log s m l).events = cookieWrites s.events := by
  simp [log_events, cookieWrites_append, cookieWrites, cwSel]

theorem log_page (s : S σ) (m l : String) : (log s m l).page = s.page := rfl

theorem cookieWrites_addWrite (l : List Ev) (c : List Cookie) :
    cookieWrites (l ++ [Ev.cookieWriteE c]) = cookieWrites l ++ [c] := by
  simp [cookieWrites_append, cookieWrites, cwSel]

/-- C2.  `verify_login` writes `cookies.json` exactly on its success path,
and the written content is precisely the browser context's cookies whose
domain contains `claw`; every failure branch (wrong domain, still on a
signin/login path, zero matching cookies, or a page-title exception)
writes nothing. -/
theorem C2_cookie_persistence (σ : Type) (b : Browser σ) (s : S σ) :
    ((verify_login b s).2 = Except.ok true →
      cookieWrites (verify_login b s).1.events =
        cookieWrites s.events ++ [(b.cookies s.page).filter fun c => substr "claw" c.domain]) ∧
    ((verify_login b s).2 ≠ Except.ok true →
      cookieWrites (verify_login b s).1.events = cookieWrites s.events) := by
  simp only [verify_login]
  split
  · exact ⟨fun h => by simp at h, fun _ => rfl⟩
  · split
    · exact ⟨fun h => by simp at h, fun _ => by simp [cookieWrites_log]⟩
    · split
      · exact ⟨fun h => by simp at h, fun _ => by simp [cookieWrites_log]⟩
      · split
        · exact ⟨fun h => by simp at h, fun _ => by simp [cookieWrites_log]⟩
        · refine ⟨fun _ => ?_, fun h => by simp at h⟩
          simp only [cookieWrites_addWrite, cookieWrites_log, log_page]

/-- Witness for C2: on a logged-in ClawCloud page with one matching and one
non-matching cookie, verification succeeds and exactly the matching subset
is written. -/
theorem C2_witness :
    (verify_login bClaw (initS envFull ())).2 = Except.ok true ∧
    cookieWrites (verify_login bClaw (initS envFull ())).1.events =
      cookieWrites (initS envFull ()).events ++
        [(bClaw.cookies ()).filter fun c => substr "claw" c.domain] :=
  ⟨rfl, (C2_cookie_persistence Unit bClaw (initS envFull ())).1 rfl⟩

/-! ## Error-banner short-circuit (login_github) -/

/-- C6.  `github_checks` is the page-state classification run by
`login_github` after submitting credentials.  If the error-banner check
(`check_github_error`) finds visible text, the classification returns
failure at once: the only events added are the banner check and its error
log, so the device-verification, two-factor and login-page checks are
never attempted. -/
theorem C6_error_banner (σ : Type) (b : Browser σ) (s : S σ) (u err : String)
    (h : check_github_error b s.page = some err) :
    (github_checks b s u).2 = Except.ok false ∧
    (github_checks b s u).1.events = s.events ++
      [Ev.checkE CheckTag.errorBanner,
       Ev.logE "ERROR" (icon "ERROR" ++ " " ++ ("GitHub 错误: " ++ err))] ∧
    (Ev.checkE CheckTag.deviceVerification ∉ s.events →
      Ev.checkE CheckTag.deviceVerification ∉ (github_checks b s u).1.events) ∧
    (Ev.checkE CheckTag.twoFactor ∉ s.events →
      Ev.checkE CheckTag.twoFactor ∉ (github_checks b s u).1.events) ∧
    (Ev.checkE CheckTag.loginPage ∉ s.events →
      Ev.checkE CheckTag.loginPage ∉ (github_checks b s u).1.events) := by
  have hev : (github_checks b s u).1.events = s.events ++
      [Ev.checkE CheckTag.errorBanner,
       Ev.logE "ERROR" (icon "ERROR" ++ " " ++ ("GitHub 错误: " ++ err))] := by
    simp only [github_checks]
    rw [show check_github_error b
      ({ s with events := s.events ++ [Ev.checkE CheckTag.errorBanner] } : S σ).page =
        some err from h]
    simp [log_events]
  have hres : (github_checks b s u).2 = Except.ok false := by
    simp only [github_checks]
    rw [show check_github_error b
      ({ s with events := s.events ++ [Ev.checkE CheckTag.errorBanner] } : S σ).page =
        some err from h]
  refine ⟨hres, hev, ?_, ?_, ?_⟩ <;>
    · intro hne hmem
      rw [hev] at hmem
      rcases List.mem_append.1 hmem with hm | hm
      · exact hne hm
      · simp at hm

/-- Witness for C6: a page with a visible `.flash-error` banner makes the
classification fail immediately. -/
theorem C6_witness :
    check_github_error bBanner () = some "Incorrect username or password." ∧
    (github_checks bBanner (initS envFull ()) "https://github.com/session").2 =
      Except.ok false :=
  ⟨rfl, (C6_error_banner Unit bBanner (initS envFull ())
    "https://github.com/session" "Incorrect username or password." rfl).1⟩

/-! ## Notifier behaviour -/

/-- C8.  When `TG_BOT_TOKEN` (or `TG_CHAT_ID`) is absent from the
environment, the notifier constructs disabled, and all three send
operations return `false` without performing any HTTP request. -/
theorem C8_notifier_disabled (env : Env) (http : TgReq → Nat)
    (fexists : String → Bool)
    (h : env "TG_BOT_TOKEN" = none ∨ env "TG_CHAT_ID" = none) :
    (TelegramNotifier.init env).enabled = false ∧
    (∀ m, (TelegramNotifier.init env).send_message http m = (false, [])) ∧
    (∀ p c, (TelegramNotifier.init env).send_photo http fexists p c = (false, [])) ∧
    (∀ p c, (TelegramNotifier.init env).send_document http fexists p c = (false, [])) := by
  have he : (TelegramNotifier.init env).enabled = false := by
    rcases h with h | h <;> simp [TelegramNotifier.init, truthy, h]
  refine ⟨he, ?_, ?_, ?_⟩
  · intro m
    simp [TelegramNotifier.send_message, he]
  · intro p c
    simp [TelegramNotifier.send_photo, he]
  · intro p c
    simp [TelegramNotifier.send_document, he]

/-- Witness for C8: without `TG_BOT_TOKEN` the notifier is disabled and a
message send is a no-op returning `false`. -/
theorem C8_witness :
    (TelegramNotifier.init envNoTG).enabled = false ∧
    (TelegramNotifier.init envNoTG).send_message httpOk "hello" = (false, []) := by
  have h := C8_notifier_disabled envNoTG httpOk allFiles (Or.inl (by decide))
  exact ⟨h.1, h.2.1 "hello"⟩

/-! ## The notification step -/

theorem tg_notifySel (r : TgReq) : notifySel (Ev.tgReqE r) = none := rfl

theorem send_message_tg (n : TelegramNotifier) (http : TgReq → Nat) (m : String) :
    ∀ e ∈ (n.send_message http m).2, ∃ r, e = Ev.tgReqE r := by
  intro e he
  simp only [TelegramNotifier.send_message] at he
  split at he
  · simp at he
  · simp at he
    exact ⟨_, he⟩

theorem send_photo_tg (n : TelegramNotifier) (http : TgReq → Nat)
    (fexists : String → Bool) (p c : String) :
    ∀ e ∈ (n.send_photo http fexists p c).2, ∃ r, e = Ev.tgReqE r := by
  intro e he
  simp only [TelegramNotifier.send_photo] at he
  split at he
  · simp at he
  · split at he
    · simp at he
    · simp at he
      exact ⟨_, he⟩

theorem foldl_photos_tg (n : TelegramNotifier) (http : TgReq → Nat)
    (fexists : String → Bool) :
    ∀ (l : List String) (acc : List Ev), (∀ e ∈ acc, ∃ r, e = Ev.tgReqE r) →
      ∀ e ∈ l.foldl (fun acc shot =>
          acc ++ (n.send_photo http fexists shot ("调试截图: " ++ shot)).2) acc,
        ∃ r, e = Ev.tgReqE r := by
  intro l
  induction l with
  | nil => intro acc hacc e he; exact hacc e he
  | cons shot rest ih =>
    intro acc hacc e he
    refine ih _ ?_ e he
    intro e' he'
    rcases List.mem_append.1 he' with hm | hm
    · exact hacc e' hm
    · exact send_photo_tg n http fexists shot ("调试截图: " ++ shot) e' hm

theorem snEvents_tg (tg : TelegramNotifier) (username : Option String)
    (http : TgReq → Nat) (fexists : String → Bool) (now : String)
    (logs screenshots : List String) (success : Bool) (error_msg : String) :
    ∀ e ∈ snEvents tg username http fexists now logs screenshots success error_msg,
      ∃ r, e = Ev.tgReqE r := by
  intro e he
  simp only [snEvents] at he
  split at he
  · simp at he
  · rcases List.mem_append.1 he with hm | hm
    · exact send_message_tg _ _ _ e hm
    · rcases hl : screenshots.getLast? with _ | last
      · rw [hl] at hm; simp at hm
      · rw [hl] at hm
        rcases List.mem_append.1 hm with hm2 | hm2
        · exact send_photo_tg _ _ _ _ _ e hm2
        · split at hm2
          · exact foldl_photos_tg tg http fexists _ [] (by simp) e hm2
          · simp at hm2

theorem tg_none_notify {Δ : List Ev} (h : ∀ e ∈ Δ, ∃ r, e = Ev.tgReqE r) :
    notifyCalls Δ = [] :=
  List.filterMap_eq_nil_iff.mpr fun e he => by
    obtain ⟨r, rfl⟩ := h e he
    rfl

theorem notifyCalls_log (s : S σ) (m l : String) :
    notifyCalls (log s m l).events = notifyCalls s.events := by
  simp [log_events, notifyCalls_append, notifyCalls, notifySel]

theorem notifyCalls_send_notification (http : TgReq → Nat)
    (fexists : String → Bool) (now : String) (s : S σ) (success : Bool)
    (msg : String) :
    notifyCalls (send_notification http fexists now s success msg).events =
      notifyCalls s.events ++ [(success, msg)] := by
  simp only [send_notification]
  rw [notifyCalls_append, notifyCalls_append,
    tg_none_notify (snEvents_tg _ _ _ _ _ _ _ _ _)]
  simp [notifyCalls, notifySel]

/-- C9.  After a successful verification the driver ignores the result of
the keep-alive step: even when keep-alive fails (a visit bounced to the
sign-in page), the run's tail sends one success notification and
terminates with exit code 0. -/
theorem C9_keepalive_ignored (σ : Type) (b : Browser σ) (http : TgReq → Nat)
    (fexists : String → Bool) (now : String) (s : S σ)
    (hka : (keepalive b (log s "步骤 6: 保持账户活跃" "STEP")).2 = false) :
    (afterVerify b http fexists now s).2 = Except.ok 0 ∧
    notifyCalls (afterVerify b http fexists now s).1.events =
      notifyCalls s.events ++ [(true, "")] := by
  refine ⟨rfl, ?_⟩
  simp only [afterVerify]
  rw [notifyCalls_send_notification]
  rw [(quietExt_keepalive b (log s "步骤 6: 保持账户活跃" "STEP")).notifyCalls_eq]
  rw [notifyCalls_log]

/-- Witness for C9: a session whose keep-alive visits bounce to the sign-in
page still yields exit code 0 and a success notification. -/
theorem C9_witness :
    (keepalive bBounce (log (initS envFull 0) "步骤 6: 保持账户活跃" "STEP")).2 = false ∧
    (afterVerify bBounce httpOk allFiles "now" (initS envFull 0)).2 = Except.ok 0 ∧
    notifyCalls (afterVerify bBounce httpOk allFiles "now" (initS envFull 0)).1.events =
      [(true, "")] := by
  have h := C9_keepalive_ignored Nat bBounce httpOk allFiles "now" (initS envFull 0) (by decide)
  exact ⟨by decide, h.1, by simpa using h.2⟩

/-! ## Run-level bookkeeping -/

theorem mem_of_ext {s s' : S σ} {e : Ev} (h : ∃ Δ, s'.events = s.events ++ Δ)
    (he : e ∈ s.events) : e ∈ s'.events := by
  obtain ⟨Δ, hΔ⟩ := h
  simp [hΔ, List.mem_append, he]

theorem ext_trans {s s' s'' : S σ} (h : ∃ Δ, s'.events = s.events ++ Δ)
    (h' : ∃ Δ, s''.events = s'.events ++ Δ) :
    ∃ Δ, s''.events = s.events ++ Δ := by
  obtain ⟨Δ, hΔ⟩ := h
  obtain ⟨Δ', hΔ'⟩ := h'
  exact ⟨Δ ++ Δ', by simp [hΔ', hΔ]⟩

theorem sn_ext (http : TgReq → Nat) (fexists : String → Bool) (now : String)
    (s : S σ) (success : Bool) (msg : String) :
    ∃ Δ, (send_notification http fexists now s success msg).events = s.events ++ Δ :=
  ⟨[Ev.notifyCallE success msg] ++ snEvents s.a.telegram s.a.username http fexists
    now s.a.logs s.a.screenshots success msg, by simp [send_notification]⟩

theorem log_mem_err (s : S σ) (m : String) :
    Ev.logE "ERROR" (icon "ERROR" ++ " " ++ m) ∈ (log s m "ERROR").events := by
  simp [log_events]

theorem validate_false_error (s : S σ) :
    ∀ s' r, validate_credentials s = (s', r) → r = false →
      ∃ line, Ev.logE "ERROR" line ∈ s'.events := by
  intro s' r hv hr
  simp only [validate_credentials] at hv
  split at hv
  · cases hv
    exact ⟨_, log_mem_err _ _⟩
  · split at hv
    · cases hv
      exact ⟨_, log_mem_err _ _⟩
    · cases hv
      simp at hr

theorem vl_false_error (b : Browser σ) (s : S σ) :
    ∀ s' r, verify_login b s = (s', r) → r = Except.ok false →
      ∃ line, Ev.logE "ERROR" line ∈ s'.events := by
  intro s' r hv hr
  simp only [verify_login] at hv
  split at hv
  · cases hv
    simp at hr
  · split at hv
    · cases hv
      exact ⟨_, log_mem_err _ _⟩
    · split at hv
      · cases hv
        exact ⟨_, log_mem_err _ _⟩
      · split at hv
        · cases hv
          exact ⟨_, log_mem_err _ _⟩
        · cases hv
          simp at hr

theorem gc_false_error (b : Browser σ) (s : S σ) (u : String) :
    ∀ s' r, github_checks b s u = (s', r) → r = Except.ok false →
      ∃ line, Ev.logE "ERROR" line ∈ s'.events := by
  intro s' r hv hr
  simp only [github_checks] at hv
  split at hv
  · cases hv
    exact ⟨_, log_mem_err _ _⟩
  · split at hv
    · cases hv
      simp at hr
    · cases hv
      exact ⟨_, mem_of_ext (quietExt_trans (quietExt_log_of_ne (by decide))
        (quietExt_screenshot _ _)).events_ext (log_mem_err _ _)⟩
    · split at hv
      · cases hv
        exact ⟨_, mem_of_ext (quietExt_screenshot _ _).events_ext (log_mem_err _ _)⟩
      · split at hv
        · split at hv
          · cases hv
            simp at hr
          · split at hv
            · cases hv
              exact ⟨_, log_mem_err _ _⟩
            · split at hv
              · cases hv
                exact ⟨_, log_mem_err _ _⟩
              · cases hv
                simp at hr
        · cases hv
          simp at hr

theorem lg_false_error (b : Browser σ) (s : S σ) :
    ∀ s' r, login_github b s = (s', r) → r = Except.ok false →
      ∃ line, Ev.logE "ERROR" line ∈ s'.events := by
  intro s' r hv hr
  simp only [login_github] at hv
  split at hv
  · cases hv
    exact ⟨_, log_mem_err _ _⟩
  · split at hv
    · cases hv
      exact ⟨_, log_mem_err _ _⟩
    · split at hv
      · cases hv
        exact ⟨_, log_mem_err _ _⟩
      · split at hv
        · cases hv
          simp at hr
        · exact gc_false_error b _ _ s' r hv hr

theorem waitLoop_false_error (b : Browser σ) :
    ∀ (fuel i : Nat) (s : S σ) (s' : S σ) (r : Except String Bool),
      waitLoop b fuel i s = (s', r) → r = Except.ok false →
      ∃ line, Ev.logE "ERROR" line ∈ s'.events := by
  intro fuel
  induction fuel with
  | zero =>
    intro i s s' r hv hr
    cases hv
    exact ⟨_, log_mem_err _ _⟩
  | succ fuel ih =>
    intro i s s' r hv hr
    simp only [waitLoop] at hv
    split at hv
    · cases hv
      simp at hr
    · split at hv
      · cases hv
        exact ⟨_, log_mem_err _ _⟩
      · rcases hoa : (if oauthCond (b.url s.page) = true then
            handle_oauth b { s with events := s.events ++ [Ev.pollE (b.url s.page)] }
          else ({ s with events := s.events ++ [Ev.pollE (b.url s.page)] }, Except.ok ()))
          with ⟨s₂, r₂⟩
        rw [hoa] at hv
        cases r₂ with
        | error e =>
          cases hv
          simp at hr
        | ok u => exact ih (i + 1) _ s' r hv hr

theorem wr_false_error (b : Browser σ) (s : S σ) (n : Nat) :
    ∀ s' r, wait_redirect b s n = (s', r) → r = Except.ok false →
      ∃ line, Ev.logE "ERROR" line ∈ s'.events := by
  intro s' r hv hr
  exact waitLoop_false_error b n 0 _ s' r hv hr

theorem tg_none_core {Δ : List Ev} (h : ∀ e ∈ Δ, ∃ r, e = Ev.tgReqE r) :
    coreEvs Δ = [] :=
  List.filter_eq_nil_iff.mpr fun e he => by
    obtain ⟨r, rfl⟩ := h e he
    simp [coreEv]

theorem coreEvs_send_notification (http : TgReq → Nat) (fexists : String → Bool)
    (now : String) (s : S σ) (success : Bool) (msg : String) :
    coreEvs (send_notification http fexists now s success msg).events =
      coreEvs s.events ++ [Ev.notifyCallE success msg] := by
  simp only [send_notification]
  rw [coreEvs_append, coreEvs_append, tg_none_core (snEvents_tg _ _ _ _ _ _ _ _ _)]
  simp [coreEvs, List.filter, coreEv]

theorem coreEvs_log_mark (s : S σ) (m : String)
    (h : coreEv (Ev.logE "STEP" (icon "STEP" ++ " " ++ m)) = true) :
    coreEvs (log s m "STEP").events =
      coreEvs s.events ++ [Ev.logE "STEP" (icon "STEP" ++ " " ++ m)] := by
  simp [log_events, coreEvs_append, coreEvs, List.filter, h]

theorem notifyCalls_coreEvs (evs : List Ev) :
    notifyCalls (coreEvs evs) = notifyCalls evs := by
  induction evs with
  | nil => rfl
  | cons e t ih =>
    by_cases hc : coreEv e = true
    · simp only [coreEvs, List.filter_cons, hc, if_true]
      simp only [notifyCalls, List.filterMap_cons] at ih ⊢
      cases hsel : notifySel e <;> simp only [hsel] <;>
        simpa [coreEvs] using ih
    · have hsel : notifySel e = none := by
        cases e <;> simp_all [coreEv, notifySel]
      simp only [coreEvs, List.filter_cons, hc, if_false, Bool.false_eq_true]
      simp only [notifyCalls, List.filterMap_cons, hsel] at ih ⊢
      simpa [coreEvs] using ih

theorem mem_of_coreEvs {e : Ev} {l : List Ev} (h : e ∈ coreEvs l) : e ∈ l :=
  (List.mem_filter.1 h).1

theorem log_ext (s : S σ) (m l : String) : ∃ Δ, (log s m l).events = s.events ++ Δ :=
  ⟨_, log_events s m l⟩

/-! ## Poll-extension machinery for the redirect waiter -/

theorem pollExt_of_quiet {s s' : S σ} (h : QuietExt s s') : PollExt s s' := by
  obtain ⟨Δ, hΔ, hq⟩ := h
  exact ⟨Δ, hΔ, fun e he => Or.inl (hq e he)⟩

theorem pollExt_trans {s s' s'' : S σ} (h : PollExt s s') (h' : PollExt s' s'') :
    PollExt s s'' := by
  obtain ⟨Δ, hΔ, hq⟩ := h
  obtain ⟨Δ', hΔ', hq'⟩ := h'
  refine ⟨Δ ++ Δ', by simp [hΔ', hΔ], ?_⟩
  intro e he
  rcases List.mem_append.1 he with h1 | h1
  · exact hq e h1
  · exact hq' e h1

theorem PollExt.pevents_ext {s s' : S σ} (h : PollExt s s') :
    ∃ Δ, s'.events = s.events ++ Δ := by
  obtain ⟨Δ, hΔ, _⟩ := h
  exact ⟨Δ, hΔ⟩

theorem pollOrQuiet_coreEv {e : Ev} (h : quietEv e = true ∨ (pollSel e).isSome) :
    coreEv e = false := by
  rcases h with h | h
  · exact quiet_coreEv h
  · cases e <;> simp_all [pollSel, coreEv]

theorem pollOrQuiet_notifySel {e : Ev} (h : quietEv e = true ∨ (pollSel e).isSome) :
    notifySel e = none := by
  rcases h with h | h
  · exact quiet_notifySel h
  · cases e <;> simp_all [pollSel, notifySel]

theorem PollExt.pcoreEvs_eq {s s' : S σ} (h : PollExt s s') :
    coreEvs s'.events = coreEvs s.events := by
  obtain ⟨Δ, hΔ, hq⟩ := h
  have : coreEvs Δ = [] :=
    List.filter_eq_nil_iff.mpr fun e he => by simp [pollOrQuiet_coreEv (hq e he)]
  simp [hΔ, coreEvs_append, this]

theorem PollExt.pnotifyCalls_eq {s s' : S σ} (h : PollExt s s') :
    notifyCalls s'.events = notifyCalls s.events := by
  obtain ⟨Δ, hΔ, hq⟩ := h
  have : notifyCalls Δ = [] :=
    List.filterMap_eq_nil_iff.mpr fun e he => pollOrQuiet_notifySel (hq e he)
  simp [hΔ, notifyCalls_append, this]

theorem pollExt_addPoll (s : S σ) (u : String) :
    PollExt s { s with events := s.events ++ [Ev.pollE u] } := by
  refine ⟨[Ev.pollE u], rfl, ?_⟩
  intro e he
  simp at he
  simp [he, pollSel]

theorem pollExt_waitLoop (b : Browser σ) :
    ∀ (fuel i : Nat) (s : S σ), PollExt s (waitLoop b fuel i s).1 := by
  intro fuel
  induction fuel with
  | zero =>
    intro i s
    exact pollExt_of_quiet (quietExt_log_of_ne (by decide))
  | succ fuel ih =>
    intro i s
    simp only [waitLoop]
    split
    · exact pollExt_trans (pollExt_addPoll s _)
        (pollExt_of_quiet (quietExt_log_of_ne (by decide)))
    · split
      · exact pollExt_trans (pollExt_addPoll s _)
          (pollExt_of_quiet (quietExt_log_of_ne (by decide)))
      · rcases hoa : (if oauthCond (b.url s.page) = true then
            handle_oauth b { s with events := s.events ++ [Ev.pollE (b.url s.page)] }
          else ({ s with events := s.events ++ [Ev.pollE (b.url s.page)] }, Except.ok ()))
          with ⟨s₂, r₂⟩
        have hq2 : PollExt s s₂ := by
          have h1 := pollExt_trans (pollExt_addPoll s (b.url s.page))
            (pollExt_of_quiet (quietExt_oauthStep b
              { s with events := s.events ++ [Ev.pollE (b.url s.page)] }
              (oauthCond (b.url s.page) = true)))
          rw [hoa] at h1
          exact h1
        cases r₂ with
        | error e => exact hq2
        | ok u =>
          refine pollExt_trans hq2 ?_
          have h3 : PollExt s₂ (waitLoop b fuel (i + 1)
              (if (i % 5 == 0) = true then
                log { s₂ with page := b.sleep s₂.page 1 }
                  ("  等待中... (" ++ toString i ++ "秒)") "INFO"
              else { s₂ with page := b.sleep s₂.page 1 })).1 := by
            refine pollExt_trans
              (pollExt_of_quiet (quietExt_setPage s₂ (b.sleep s₂.page 1))) ?_
            exact pollExt_trans
              (pollExt_of_quiet (quietExt_iteLog { s₂ with page := b.sleep s₂.page 1 }
                ((i % 5 == 0) = true) ("  等待中... (" ++ toString i ++ "秒)")))
              (ih (i + 1) _)
          exact h3

theorem pollExt_wait_redirect45 (b : Browser σ) (s : S σ) :
    PollExt s (wait_redirect b s 45).1 :=
  pollExt_trans (pollExt_of_quiet (quietExt_log (by decide))) (pollExt_waitLoop b 45 0 _)

/-! ## Specifications of the driver branches -/

theorem afterVerify_spec (b : Browser σ) (http : TgReq → Nat)
    (fexists : String → Bool) (now : String) (s : S σ) :
    ∀ s' r, afterVerify b http fexists now s = (s', r) →
      (∃ Δ, s'.events = s.events ++ Δ) ∧ r = Except.ok 0 ∧
      coreEvs s'.events = coreEvs s.events ++
        [Ev.logE "STEP" (icon "STEP" ++ " " ++ "步骤 6: 保持账户活跃"),
         Ev.notifyCallE true ""] := by
  intro s' r hv
  simp only [afterVerify] at hv
  cases hv
  refine ⟨?_, rfl, ?_⟩
  · exact ext_trans (log_ext _ _ _)
      (ext_trans (quietExt_keepalive _ _).events_ext (sn_ext _ _ _ _ _ _))
  · rw [coreEvs_send_notification, (quietExt_keepalive b _).coreEvs_eq,
      coreEvs_log_mark _ _ (by decide)]
    simp

theorem alreadyBranch_spec (b : Browser σ) (http : TgReq → Nat)
    (fexists : String → Bool) (now : String) (s : S σ) :
    ∀ s' r, alreadyBranch b http fexists now s = (s', r) →
      (∃ Δ, s'.events = s.events ++ Δ) ∧
      ((r = Except.ok 0 ∧
          coreEvs s'.events = coreEvs s.events ++ [Ev.notifyCallE true ""]) ∨
       (r = Except.ok 1 ∧
          coreEvs s'.events = coreEvs s.events ++
            [Ev.notifyCallE false "验证登录状态失败"] ∧
          ∃ line, Ev.logE "ERROR" line ∈ s'.events) ∨
       (∃ e, r = Except.error e ∧ coreEvs s'.events = coreEvs s.events)) := by
  intro s' r hv
  simp only [alreadyBranch] at hv
  split at hv
  next x s₂ e heq =>
    cases hv
    have hq : QuietExt s s' := by
      have h1 := quietExt_trans
        (quietExt_log_of_ne (by decide) : QuietExt s (log s "已经登录！" "SUCCESS"))
        (quietExt_verify_login b (log s "已经登录！" "SUCCESS"))
      rw [heq] at h1
      exact h1
    exact ⟨hq.events_ext, Or.inr (Or.inr ⟨e, rfl, hq.coreEvs_eq⟩)⟩
  next x s₂ heq =>
    cases hv
    have hq : QuietExt s s₂ := by
      have h1 := quietExt_trans
        (quietExt_log_of_ne (by decide) : QuietExt s (log s "已经登录！" "SUCCESS"))
        (quietExt_verify_login b (log s "已经登录！" "SUCCESS"))
      rw [heq] at h1
      exact h1
    have hq2 : QuietExt s (keepalive b s₂).1 :=
      quietExt_trans hq (quietExt_keepalive b s₂)
    refine ⟨ext_trans hq2.events_ext (sn_ext _ _ _ _ _ _), Or.inl ⟨rfl, ?_⟩⟩
    rw [coreEvs_send_notification, hq2.coreEvs_eq]
  next x s₂ heq =>
    cases hv
    have hq : QuietExt s s₂ := by
      have h1 := quietExt_trans
        (quietExt_log_of_ne (by decide) : QuietExt s (log s "已经登录！" "SUCCESS"))
        (quietExt_verify_login b (log s "已经登录！" "SUCCESS"))
      rw [heq] at h1
      exact h1
    refine ⟨ext_trans hq.events_ext (sn_ext _ _ _ _ _ _),
      Or.inr (Or.inl ⟨rfl, ?_, ?_⟩)⟩
    · rw [coreEvs_send_notification, hq.coreEvs_eq]
    · obtain ⟨line, hline⟩ := vl_false_error b (log s "已经登录！" "SUCCESS") s₂
        (Except.ok false) heq rfl
      exact ⟨line, mem_of_ext (sn_ext _ _ _ _ _ _) hline⟩

theorem step4Flow_spec (b : Browser σ) (http : TgReq → Nat)
    (fexists : String → Bool) (now : String) (s : S σ) :
    ∀ s' r, step4Flow b http fexists now s = (s', r) →
      (∃ Δ, s'.events = s.events ++ Δ) ∧
      ((∃ m k, r = Except.ok 1 ∧ 1 ≤ k ∧ k ≤ 2 ∧
          coreEvs s'.events = coreEvs s.events ++ (stepMarkers.drop 3).take k ++
            [Ev.notifyCallE false m] ∧
          ∃ line, Ev.logE "ERROR" line ∈ s'.events) ∨
       (r = Except.ok 0 ∧
          coreEvs s'.events = coreEvs s.events ++ stepMarkers.drop 3 ++
            [Ev.notifyCallE true ""]) ∨
       (∃ e k, r = Except.error e ∧ 1 ≤ k ∧ k ≤ 2 ∧
          coreEvs s'.events = coreEvs s.events ++ (stepMarkers.drop 3).take k)) := by
  intro s' r hv
  simp only [step4Flow] at hv
  split at hv
  next x s₂ e heq =>
    cases hv
    have hp : PollExt (log s "步骤 4: 等待重定向" "STEP") s' := by
      have h1 := pollExt_wait_redirect45 b (log s "步骤 4: 等待重定向" "STEP")
      rw [heq] at h1
      exact h1
    refine ⟨ext_trans (log_ext _ _ _) hp.pevents_ext,
      Or.inr (Or.inr ⟨e, 1, rfl, by omega, by omega, ?_⟩)⟩
    rw [hp.pcoreEvs_eq, coreEvs_log_mark _ _ (by decide)]
    rfl
  next x s₂ heq =>
    cases hv
    have hp : PollExt (log s "步骤 4: 等待重定向" "STEP") s₂ := by
      have h1 := pollExt_wait_redirect45 b (log s "步骤 4: 等待重定向" "STEP")
      rw [heq] at h1
      exact h1
    refine ⟨?_, Or.inl ⟨"重定向到 ClawCloud 失败", 1, rfl, by omega, by omega, ?_, ?_⟩⟩
    · refine ext_trans (log_ext _ _ _) (ext_trans hp.pevents_ext
        (ext_trans (quietExt_screenshot _ _).events_ext (sn_ext _ _ _ _ _ _)))
    · rw [coreEvs_send_notification, (quietExt_screenshot _ _).coreEvs_eq,
        hp.pcoreEvs_eq, coreEvs_log_mark _ _ (by decide)]
      rfl
    · obtain ⟨line, hline⟩ := wr_false_error b (log s "步骤 4: 等待重定向" "STEP") 45
        s₂ (Except.ok false) heq rfl
      exact ⟨line, mem_of_ext (sn_ext _ _ _ _ _ _)
        (mem_of_ext (quietExt_screenshot _ _).events_ext hline)⟩
  next x s₂ heq =>
    have hp : PollExt (log s "步骤 4: 等待重定向" "STEP") s₂ := by
      have h1 := pollExt_wait_redirect45 b (log s "步骤 4: 等待重定向" "STEP")
      rw [heq] at h1
      exact h1
    have hcore2 : coreEvs s₂.events = coreEvs s.events ++
        [Ev.logE "STEP" (icon "STEP" ++ " " ++ "步骤 4: 等待重定向")] := by
      rw [hp.pcoreEvs_eq, coreEvs_log_mark _ _ (by decide)]
    have hext2 : ∃ Δ, s₂.events = s.events ++ Δ :=
      ext_trans (log_ext _ _ _) hp.pevents_ext
    have hcore4 : coreEvs (log ((screenshot s₂ "重定向成功").1)
        "步骤 5: 验证登录状态" "STEP").events = coreEvs s.events ++
        [Ev.logE "STEP" (icon "STEP" ++ " " ++ "步骤 4: 等待重定向"),
         Ev.logE "STEP" (icon "STEP" ++ " " ++ "步骤 5: 验证登录状态")] := by
      rw [coreEvs_log_mark _ _ (by decide), (quietExt_screenshot s₂ "重定向成功").coreEvs_eq,
        hcore2]
      simp
    have hext4 : ∃ Δ, (log ((screenshot s₂ "重定向成功").1)
        "步骤 5: 验证登录状态" "STEP").events = s.events ++ Δ :=
      ext_trans hext2 (ext_trans (quietExt_screenshot s₂ "重定向成功").events_ext
        (log_ext _ _ _))
    split at hv
    next x2 s₅ e heq2 =>
      cases hv
      have hq5 : QuietExt (log ((screenshot s₂ "重定向成功").1)
          "步骤 5: 验证登录状态" "STEP") s' := by
        have h1 := quietExt_verify_login b
          (log ((screenshot s₂ "重定向成功").1) "步骤 5: 验证登录状态" "STEP")
        rw [heq2] at h1
        exact h1
      refine ⟨ext_trans hext4 hq5.events_ext,
        Or.inr (Or.inr ⟨e, 2, rfl, by omega, by omega, ?_⟩)⟩
      rw [hq5.coreEvs_eq, hcore4]
      simp
      rfl
    next x2 s₅ heq2 =>
      cases hv
      have hq5 : QuietExt (log ((screenshot s₂ "重定向成功").1)
          "步骤 5: 验证登录状态" "STEP") s₅ := by
        have h1 := quietExt_verify_login b
          (log ((screenshot s₂ "重定向成功").1) "步骤 5: 验证登录状态" "STEP")
        rw [heq2] at h1
        exact h1
      refine ⟨?_, Or.inl ⟨"登录验证失败", 2, rfl, by omega, by omega, ?_, ?_⟩⟩
      · exact ext_trans hext4 (ext_trans hq5.events_ext
          (ext_trans (quietExt_screenshot _ _).events_ext (sn_ext _ _ _ _ _ _)))
      · rw [coreEvs_send_notification, (quietExt_screenshot _ _).coreEvs_eq,
          hq5.coreEvs_eq, hcore4]
        simp
        rfl
      · obtain ⟨line, hline⟩ := vl_false_error b
          (log ((screenshot s₂ "重定向成功").1) "步骤 5: 验证登录状态" "STEP")
          s₅ (Except.ok false) heq2 rfl
        exact ⟨line, mem_of_ext (sn_ext _ _ _ _ _ _)
          (mem_of_ext (quietExt_screenshot _ _).events_ext hline)⟩
    next x2 s₅ heq2 =>
      have hq5 : QuietExt (log ((screenshot s₂ "重定向成功").1)
          "步骤 5: 验证登录状态" "STEP") s₅ := by
        have h1 := quietExt_verify_login b
          (log ((screenshot s₂ "重定向成功").1) "步骤 5: 验证登录状态" "STEP")
        rw [heq2] at h1
        exact h1
      obtain ⟨hext5, hr, hcore5⟩ := afterVerify_spec b http fexists now s₅ s' r hv
      subst hr
      refine ⟨ext_trans hext4 (ext_trans hq5.events_ext hext5),
        Or.inr (Or.inl ⟨rfl, ?_⟩)⟩
      rw [hcore5, hq5.coreEvs_eq, hcore4]
      simp
      rfl

theorem quietExt_ghStep (b : Browser σ) (s : S σ) (c : Prop) [Decidable c] :
    QuietExt s (if c then login_github b s else (s, Except.ok true)).1 := by
  split
  · exact quietExt_login_github b s
  · exact quietExt_refl s

theorem ghStep_false_error (b : Browser σ) (s : S σ) (c : Prop) [Decidable c] :
    ∀ s' r, (if c then login_github b s else (s, Except.ok true)) = (s', r) →
      r = Except.ok false → ∃ line, Ev.logE "ERROR" line ∈ s'.events := by
  intro s' r hv hr
  split at hv
  · exact lg_false_error b s s' r hv hr
  · cases hv
    simp at hr

theorem step3Flow_spec (b : Browser σ) (http : TgReq → Nat)
    (fexists : String → Bool) (now : String) (s : S σ) :
    ∀ s' r, step3Flow b http fexists now s = (s', r) →
      (∃ Δ, s'.events = s.events ++ Δ) ∧
      ((∃ m k, r = Except.ok 1 ∧ k ≤ 2 ∧
          coreEvs s'.events = coreEvs s.events ++ (stepMarkers.drop 3).take k ++
            [Ev.notifyCallE false m] ∧
          ∃ line, Ev.logE "ERROR" line ∈ s'.events) ∨
       (r = Except.ok 0 ∧
          coreEvs s'.events = coreEvs s.events ++ stepMarkers.drop 3 ++
            [Ev.notifyCallE true ""]) ∨
       (∃ e k, r = Except.error e ∧ k ≤ 2 ∧
          coreEvs s'.events = coreEvs s.events ++ (stepMarkers.drop 3).take k)) := by
  intro s' r hv
  simp only [step3Flow] at hv
  split at hv
  next x s₇ e heq =>
    cases hv
    have hq7 : QuietExt s s' := by
      have h1 := quietExt_ghStep b s (ghCond (b.url s.page) = true)
      rw [heq] at h1
      exact h1
    exact ⟨hq7.events_ext, Or.inr (Or.inr ⟨e, 0, rfl, by omega, by simp [hq7.coreEvs_eq]⟩)⟩
  next x s₇ heq =>
    cases hv
    have hq7 : QuietExt s s₇ := by
      have h1 := quietExt_ghStep b s (ghCond (b.url s.page) = true)
      rw [heq] at h1
      exact h1
    refine ⟨?_, Or.inl ⟨"GitHub 登录失败", 0, rfl, by omega, ?_, ?_⟩⟩
    · exact ext_trans hq7.events_ext
        (ext_trans (quietExt_screenshot _ _).events_ext (sn_ext _ _ _ _ _ _))
    · rw [coreEvs_send_notification, (quietExt_screenshot _ _).coreEvs_eq,
        hq7.coreEvs_eq]
      simp
    · obtain ⟨line, hline⟩ := ghStep_false_error b s _ s₇ (Except.ok false) heq rfl
      exact ⟨line, mem_of_ext (sn_ext _ _ _ _ _ _)
        (mem_of_ext (quietExt_screenshot _ _).events_ext hline)⟩
  next x s₇ heq =>
    have hq7 : QuietExt s s₇ := by
      have h1 := quietExt_ghStep b s (ghCond (b.url s.page) = true)
      rw [heq] at h1
      exact h1
    obtain ⟨hext8, hdisj⟩ := step4Flow_spec b http fexists now s₇ s' r hv
    have hextAll : ∃ Δ, s'.events = s.events ++ Δ :=
      ext_trans hq7.events_ext hext8
    rcases hdisj with ⟨m, k, hr, hk1, hk2, hcoreS, herr⟩ | ⟨hr, hcoreS⟩ |
      ⟨e, k, hr, hk1, hk2, hcoreS⟩
    · exact ⟨hextAll, Or.inl ⟨m, k, hr, by omega,
        by rw [hcoreS, hq7.coreEvs_eq], herr⟩⟩
    · exact ⟨hextAll, Or.inr (Or.inl ⟨hr, by rw [hcoreS, hq7.coreEvs_eq]⟩)⟩
    · exact ⟨hextAll, Or.inr (Or.inr ⟨e, k, hr, by omega,
        by rw [hcoreS, hq7.coreEvs_eq]⟩)⟩

theorem mainFlow_spec (b : Browser σ) (http : TgReq → Nat)
    (fexists : String → Bool) (now : String) (s : S σ) :
    ∀ s' r, mainFlow b http fexists now s = (s', r) →
      (∃ Δ, s'.events = s.events ++ Δ) ∧
      ((∃ m k, r = Except.ok 1 ∧ 1 ≤ k ∧ k ≤ 4 ∧
          coreEvs s'.events = coreEvs s.events ++ (stepMarkers.drop 1).take k ++
            [Ev.notifyCallE false m] ∧
          ∃ line, Ev.logE "ERROR" line ∈ s'.events) ∨
       (r = Except.ok 0 ∧
          coreEvs s'.events = coreEvs s.events ++ stepMarkers.drop 1 ++
            [Ev.notifyCallE true ""]) ∨
       (∃ e k, r = Except.error e ∧ 1 ≤ k ∧ k ≤ 4 ∧
          coreEvs s'.events = coreEvs s.events ++ (stepMarkers.drop 1).take k)) := by
  intro s' r hv
  simp only [mainFlow] at hv
  split at hv
  next x s₂ heq =>
    cases hv
    have hq2 : QuietExt (log s "步骤 2: 点击 GitHub 登录按钮" "STEP") s₂ := by
      have h1 := quietExt_fac b "GitHub 按钮" github_selectors
        (log s "步骤 2: 点击 GitHub 登录按钮" "STEP")
      rw [heq] at h1
      exact h1
    refine ⟨?_, Or.inl ⟨"找不到 GitHub 登录按钮", 1, rfl, by omega, by omega, ?_, ?_⟩⟩
    · exact ext_trans (log_ext _ _ _) (ext_trans hq2.events_ext
        (ext_trans (log_ext _ _ _)
          (ext_trans (quietExt_screenshot _ _).events_ext (sn_ext _ _ _ _ _ _))))
    · rw [coreEvs_send_notification, (quietExt_screenshot _ _).coreEvs_eq,
        (quietExt_log_of_ne (by decide) :
          QuietExt s₂ (log s₂ "找不到 GitHub 登录按钮" "ERROR")).coreEvs_eq,
        hq2.coreEvs_eq, coreEvs_log_mark _ _ (by decide)]
      rfl
    · refine ⟨_, mem_of_ext (sn_ext _ _ _ _ _ _)
        (mem_of_ext (quietExt_screenshot _ _).events_ext (log_mem_err s₂ _))⟩
  next x s₂ heq =>
    have hq2 : QuietExt (log s "步骤 2: 点击 GitHub 登录按钮" "STEP") s₂ := by
      have h1 := quietExt_fac b "GitHub 按钮" github_selectors
        (log s "步骤 2: 点击 GitHub 登录按钮" "STEP")
      rw [heq] at h1
      exact h1
    have hcore2 : coreEvs s₂.events = coreEvs s.events ++
        [Ev.logE "STEP" (icon "STEP" ++ " " ++ "步骤 2: 点击 GitHub 登录按钮")] := by
      rw [hq2.coreEvs_eq, coreEvs_log_mark _ _ (by decide)]
    have hext2 : ∃ Δ, s₂.events = s.events ++ Δ :=
      ext_trans (log_ext _ _ _) hq2.events_ext
    split at hv
    next x2 e heq2 =>
      cases hv
      refine ⟨ext_trans hext2 ⟨[], by simp⟩,
        Or.inr (Or.inr ⟨e, 1, rfl, by omega, by omega, ?_⟩)⟩
      rw [show (({ s₂ with page := b.sleep s₂.page 3 } : S σ)).events = s₂.events from rfl,
        hcore2]
      rfl
    next x2 pg heq2 =>
      have hcore6 : coreEvs (log ((screenshot ({ s₂ with page := pg } : S σ)
          "点击github后").1) "步骤 3: GitHub 身份验证" "STEP").events =
          coreEvs s.events ++
          [Ev.logE "STEP" (icon "STEP" ++ " " ++ "步骤 2: 点击 GitHub 登录按钮"),
           Ev.logE "STEP" (icon "STEP" ++ " " ++ "步骤 3: GitHub 身份验证")] := by
        rw [coreEvs_log_mark _ _ (by decide), (quietExt_screenshot _ _).coreEvs_eq]
        rw [show (({ s₂ with page := pg } : S σ)).events = s₂.events from rfl, hcore2]
        simp
      have hext6 : ∃ Δ, (log ((screenshot ({ s₂ with page := pg } : S σ)
          "点击github后").1) "步骤 3: GitHub 身份验证" "STEP").events = s.events ++ Δ := by
        refine ext_trans hext2 (ext_trans ?_ (log_ext _ _ _))
        exact ext_trans (⟨[], by simp⟩ :
            ∃ Δ, (({ s₂ with page := pg } : S σ)).events = s₂.events ++ Δ)
          (quietExt_screenshot _ _).events_ext
      obtain ⟨hext8, hdisj⟩ := step3Flow_spec b http fexists now _ s' r hv
      have hextAll : ∃ Δ, s'.events = s.events ++ Δ := ext_trans hext6 hext8
      rcases hdisj with ⟨m, k, hr, hk2, hcoreS, herr⟩ | ⟨hr, hcoreS⟩ |
        ⟨e, k, hr, hk2, hcoreS⟩
      · refine ⟨hextAll, Or.inl ⟨m, 2 + k, hr, by omega, by omega, ?_, herr⟩⟩
        rw [hcoreS, hcore6]
        rcases (by omega : k = 0 ∨ k = 1 ∨ k = 2) with rfl | rfl | rfl <;>
          · simp
            rfl
      · refine ⟨hextAll, Or.inr (Or.inl ⟨hr, ?_⟩)⟩
        rw [hcoreS, hcore6]
        simp
        rfl
      · refine ⟨hextAll, Or.inr (Or.inr ⟨e, 2 + k, hr, by omega, by omega, ?_⟩)⟩
        rw [hcoreS, hcore6]
        rcases (by omega : k = 0 ∨ k = 1 ∨ k = 2) with rfl | rfl | rfl <;>
          · simp
            rfl

theorem openSignin_spec (b : Browser σ) (s : S σ) :
    ∀ s' r, openSignin b s = (s', r) →
      (∃ Δ, s'.events = s.events ++ Δ) ∧
      coreEvs s'.events = coreEvs s.events ++
        [Ev.logE "STEP" (icon "STEP" ++ " " ++ "步骤 1: 打开 ClawCloud 登录页")] ∧
      (r = Except.ok () → ∃ f, Ev.shotE f ∈ s'.events) := by
  intro s' r hv
  simp only [openSignin] at hv
  split at hv
  next x e heq =>
    cases hv
    refine ⟨log_ext _ _ _, coreEvs_log_mark _ _ (by decide), ?_⟩
    intro h
    simp at h
  next x pg heq =>
    split at hv
    next x2 e2 heq2 =>
      cases hv
      refine ⟨ext_trans (log_ext _ _ _) (quietExt_setPage _ _).events_ext, ?_, ?_⟩
      · rw [(quietExt_setPage _ _).coreEvs_eq, coreEvs_log_mark _ _ (by decide)]
      · intro h
        simp at h
    next x2 pg2 heq2 =>
      cases hv
      have hq : QuietExt (log s "步骤 1: 打开 ClawCloud 登录页" "STEP")
          (screenshot { log s "步骤 1: 打开 ClawCloud 登录页" "STEP" with
            page := b.sleep pg2 2 } "clawcloud_登录页").1 := by
        refine quietExt_trans (quietExt_setPage _ pg) ?_
        exact quietExt_trans (quietExt_setPage _ (b.sleep pg2 2)) (quietExt_screenshot _ _)
      refine ⟨ext_trans (log_ext _ _ _) hq.events_ext, ?_, ?_⟩
      · rw [hq.coreEvs_eq, coreEvs_log_mark _ _ (by decide)]
      · intro _
        refine ⟨pad2 ((log s "步骤 1: 打开 ClawCloud 登录页" "STEP").a.screenshot_count + 1) ++
          "_" ++ "clawcloud_登录页" ++ ".png", ?_⟩
        rw [screenshot_events]
        simp

theorem runBody_spec (b : Browser σ) (http : TgReq → Nat)
    (fexists : String → Bool) (now : String) (s : S σ) :
    ∀ s' r, runBody b http fexists now s = (s', r) →
      (∃ Δ, s'.events = s.events ++ Δ) ∧
      ((∃ m c k, r = Except.ok c ∧ k ≤ 6 ∧
          coreEvs s'.events = coreEvs s.events ++ stepMarkers.take k ++
            [Ev.notifyCallE (c == 0) m] ∧
          (c ≠ 0 → (∃ line, Ev.logE "ERROR" line ∈ s'.events) ∧
            ∃ f, Ev.shotE f ∈ s'.events)) ∨
       (∃ e k, r = Except.error e ∧ k ≤ 6 ∧
          coreEvs s'.events = coreEvs s.events ++ stepMarkers.take k)) := by
  intro s' r hv
  simp only [runBody] at hv
  split at hv
  next x s₁ e heq =>
    cases hv
    obtain ⟨hext1, hcore1, _⟩ := openSignin_spec b s s' (Except.error e) heq
    refine ⟨hext1, Or.inr ⟨e, 1, rfl, by omega, ?_⟩⟩
    rw [hcore1]
    rfl
  next x s₁ heq =>
    obtain ⟨hext1, hcore1, hshot1⟩ := openSignin_spec b s s₁ (Except.ok ()) heq
    obtain ⟨f, hf⟩ := hshot1 rfl
    split at hv
    · obtain ⟨hext2, hdisj⟩ := mainFlow_spec b http fexists now s₁ s' r hv
      have hextAll : ∃ Δ, s'.events = s.events ++ Δ := ext_trans hext1 hext2
      have hshot : ∃ g, Ev.shotE g ∈ s'.events := ⟨f, mem_of_ext hext2 hf⟩
      rcases hdisj with ⟨m, k, hr, hk1, hk2, hcore, herr⟩ | ⟨hr, hcore⟩ |
        ⟨e, k, hr, hk1, hk2, hcore⟩
      · refine ⟨hextAll, Or.inl ⟨m, 1, 1 + k, hr, by omega, ?_, fun _ => ⟨herr, hshot⟩⟩⟩
        rw [hcore, hcore1, List.take_add]
        simp
        rfl
      · refine ⟨hextAll, Or.inl ⟨"", 0, 6, hr, by omega, ?_, fun hc => absurd rfl hc⟩⟩
        rw [hcore, hcore1]
        simp
        rfl
      · refine ⟨hextAll, Or.inr ⟨e, 1 + k, hr, by omega, ?_⟩⟩
        rw [hcore, hcore1, List.take_add]
        simp
        rfl
    · obtain ⟨hext2, hdisj⟩ := alreadyBranch_spec b http fexists now s₁ s' r hv
      have hextAll : ∃ Δ, s'.events = s.events ++ Δ := ext_trans hext1 hext2
      have hshot : ∃ g, Ev.shotE g ∈ s'.events := ⟨f, mem_of_ext hext2 hf⟩
      rcases hdisj with ⟨hr, hcore⟩ | ⟨hr, hcore, herr⟩ | ⟨e, hr, hcore⟩
      · refine ⟨hextAll, Or.inl ⟨"", 0, 1, hr, by omega, ?_, fun hc => absurd rfl hc⟩⟩
        rw [hcore, hcore1]
        simp
        rfl
      · refine ⟨hextAll, Or.inl ⟨"验证登录状态失败", 1, 1, hr, by omega, ?_,
          fun _ => ⟨herr, hshot⟩⟩⟩
        rw [hcore, hcore1]
        simp
        rfl
      · refine ⟨hextAll, Or.inr ⟨e, 1, hr, by omega, ?_⟩⟩
        rw [hcore, hcore1]
        rfl

theorem coreEvs_launch (s : S σ) :
    coreEvs ({ s with events := s.events ++ [Ev.browserLaunchE] } : S σ).events =
      coreEvs s.events := by
  simp [coreEvs_append, coreEvs, List.filter, coreEv]

theorem runFrom_spec (b : Browser σ) (http : TgReq → Nat)
    (fexists : String → Bool) (now : String) (s : S σ) :
    ∀ R : RunResult σ, runFrom b http fexists now s = R →
      ∃ k m, k ≤ 6 ∧
        coreEvs R.fin.events = coreEvs s.events ++ stepMarkers.take k ++
          [Ev.notifyCallE (R.exitCode == 0) m] ∧
        (R.exitCode ≠ 0 →
          (∃ line, Ev.logE "ERROR" line ∈ R.fin.events) ∧
          (m ≠ "凭据未配置" → ∃ f, Ev.shotE f ∈ R.fin.events)) := by
  intro R hv
  simp only [runFrom] at hv
  split at hv
  next x s₁ heq =>
    cases hv
    have hcore1 : coreEvs s₁.events = coreEvs s.events := by
      have h1 := (quietExt_validate s).coreEvs_eq
      rw [heq] at h1
      exact h1
    refine ⟨0, "凭据未配置", by omega, ?_, ?_⟩
    · show coreEvs (send_notification http fexists now s₁ false "凭据未配置").events =
        coreEvs s.events ++ stepMarkers.take 0 ++
        [Ev.notifyCallE (((1 : Nat) == 0)) "凭据未配置"]
      rw [coreEvs_send_notification, hcore1]
      simp
    · intro _
      constructor
      · obtain ⟨line, hl⟩ := validate_false_error s s₁ false heq rfl
        exact ⟨line, mem_of_ext (sn_ext http fexists now s₁ false "凭据未配置") hl⟩
      · intro hm
        exact absurd rfl hm
  next x s₁ heq =>
    have hcore1 : coreEvs s₁.events = coreEvs s.events := by
      have h1 := (quietExt_validate s).coreEvs_eq
      rw [heq] at h1
      exact h1
    have hcore2 : coreEvs ({ s₁ with events := s₁.events ++ [Ev.browserLaunchE] } :
        S σ).events = coreEvs s.events := by
      rw [coreEvs_launch, hcore1]
    split at hv
    next x2 s₃ code heq2 =>
      cases hv
      obtain ⟨hext3, hdisj⟩ := runBody_spec b http fexists now
        ({ s₁ with events := s₁.events ++ [Ev.browserLaunchE] }) s₃ (Except.ok code) heq2
      rcases hdisj with ⟨m, c, k, hr, hk, hcore, hfail⟩ | ⟨e, k, hr, hk, hcore⟩
      · have hc : c = code := by
          injection hr with h
          exact h.symm
        rw [hc] at hcore hfail
        refine ⟨k, m, hk, ?_, ?_⟩
        · show coreEvs s₃.events = coreEvs s.events ++ stepMarkers.take k ++
            [Ev.notifyCallE ((code == 0)) m]
          rw [hcore, hcore2]
        · intro hc0
          obtain ⟨h1, h2⟩ := hfail (by simpa using hc0)
          exact ⟨h1, fun _ => h2⟩
      · cases hr
    next x2 s₃ e heq2 =>
      obtain ⟨hext3, hdisj⟩ := runBody_spec b http fexists now
        ({ s₁ with events := s₁.events ++ [Ev.browserLaunchE] }) s₃ (Except.error e) heq2
      rcases hdisj with ⟨m, c, k, hr, hk, hcore, hfail⟩ | ⟨e', k, hr, hk, hcore⟩
      · cases hr
      · have he : e' = e := by
          injection hr with h
          exact h.symm
        subst he
        cases hv
        refine ⟨k, e', hk, ?_, ?_⟩
        · show coreEvs (send_notification http fexists now
            ((screenshot (log s₃ ("发生异常: " ++ e') "ERROR") "异常").1) false e').events =
            coreEvs s.events ++ stepMarkers.take k ++
            [Ev.notifyCallE (((1 : Nat) == 0)) e']
          rw [coreEvs_send_notification, (quietExt_screenshot _ _).coreEvs_eq,
            (quietExt_log_of_ne (by decide) :
              QuietExt s₃ (log s₃ ("发生异常: " ++ e') "ERROR")).coreEvs_eq,
            hcore, hcore2]
          simp
        · intro _
          constructor
          · refine ⟨_, mem_of_ext (sn_ext _ _ _ _ _ _)
              (mem_of_ext (quietExt_screenshot _ _).events_ext (log_mem_err s₃ _))⟩
          · intro _
            refine ⟨pad2 ((log s₃ ("发生异常: " ++ e') "ERROR").a.screenshot_count + 1) ++
              "_" ++ "异常" ++ ".png", ?_⟩
            refine mem_of_ext (sn_ext _ _ _ _ _ _) ?_
            rw [screenshot_events]
            simp

theorem run_spec (σ : Type) (env : Env) (b : Browser σ) (http : TgReq → Nat)
    (fexists : String → Bool) (now : String) (pg0 : σ) :
    ∃ k m, k ≤ 6 ∧
      coreEvs (run env b http fexists now pg0).fin.events =
        stepMarkers.take k ++
        [Ev.notifyCallE ((run env b http fexists now pg0).exitCode == 0) m] ∧
      ((run env b http fexists now pg0).exitCode ≠ 0 →
        (∃ line, Ev.logE "ERROR" line ∈ (run env b http fexists now pg0).fin.events) ∧
        (m ≠ "凭据未配置" →
          ∃ f, Ev.shotE f ∈ (run env b http fexists now pg0).fin.events)) := by
  obtain ⟨k, m, hk, hcore, hfail⟩ := runFrom_spec b http fexists now (initS env pg0)
    (run env b http fexists now pg0) rfl
  refine ⟨k, m, hk, ?_, hfail⟩
  rw [show coreEvs (initS env pg0).events = [] from rfl] at hcore
  simpa using hcore

/-! ## Missing credentials (C3) -/

theorem validate_false_of_missing (s : S σ)
    (h : truthy s.a.username = false ∨ truthy s.a.token = false) :
    ∀ s' rv, validate_credentials s = (s', rv) → rv = false := by
  intro s' rv hval
  simp only [validate_credentials] at hval
  split at hval
  · injection hval with h1 h2
    exact h2.symm
  next hcond =>
    split at hval
    · injection hval with h1 h2
      exact h2.symm
    next hcond2 =>
      rcases h with h | h
      · rw [h] at hcond
        simp at hcond
      · rw [h] at hcond2
        simp at hcond2

theorem validate_logs (s : S σ) :
    ∀ s' rv, validate_credentials s = (s', rv) →
      ∀ e ∈ s'.events, e ∈ s.events ∨ ∃ lv line, e = Ev.logE lv line := by
  intro s' rv hval e he
  simp only [validate_credentials] at hval
  split at hval
  · cases hval
    rw [log_events] at he
    rcases List.mem_append.1 he with h | h
    · exact Or.inl h
    · simp at h
      exact Or.inr ⟨_, _, h⟩
  · split at hval
    · cases hval
      rw [log_events] at he
      rcases List.mem_append.1 he with h | h
      · exact Or.inl h
      · simp at h
        exact Or.inr ⟨_, _, h⟩
    · cases hval
      rw [log_events, log_events] at he
      rcases List.mem_append.1 he with h | h
      · rcases List.mem_append.1 h with h2 | h2
        · exact Or.inl h2
        · simp at h2
          exact Or.inr ⟨_, _, h2⟩
      · simp at h
        exact Or.inr ⟨_, _, h⟩

/-- C3.  When `GH_USERNAME` or `GH_PAT` is absent from the environment, the
run exits with status 1 and its whole event trace is free of
browser-session events (no browser launch, screenshot, URL poll,
page-state check or cookie dump): credential validation fails before the
browser-automation context is entered. -/
theorem C3_missing_credentials (σ : Type) (b : Browser σ) (env : Env)
    (http : TgReq → Nat) (fexists : String → Bool) (now : String) (pg0 : σ)
    (h : env "GH_USERNAME" = none ∨ env "GH_PAT" = none) :
    (run env b http fexists now pg0).exitCode = 1 ∧
    ∀ e ∈ (run env b http fexists now pg0).fin.events, browserEv e = false := by
  have hmiss : truthy (initS env pg0 : S σ).a.username = false ∨
      truthy (initS env pg0 : S σ).a.token = false := by
    rcases h with h | h
    · left
      rw [show (initS env pg0 : S σ).a.username = env "GH_USERNAME" from rfl, h]
      rfl
    · right
      rw [show (initS env pg0 : S σ).a.token = env "GH_PAT" from rfl, h]
      rfl
  rcases hval : validate_credentials (initS env pg0) with ⟨s₁, rv⟩
  have hrv : rv = false := validate_false_of_missing (initS env pg0) hmiss s₁ rv hval
  subst hrv
  have hrun : run env b http fexists now pg0 =
      { exitCode := 1,
        fin := send_notification http fexists now s₁ false "凭据未配置" } := by
    simp only [run, runFrom]
    rw [hval]
  rw [hrun]
  refine ⟨rfl, ?_⟩
  intro e he
  rw [show (send_notification http fexists now s₁ false "凭据未配置").events =
    s₁.events ++ [Ev.notifyCallE false "凭据未配置"] ++
      snEvents s₁.a.telegram s₁.a.username http fexists now s₁.a.logs
        s₁.a.screenshots false "凭据未配置" from rfl] at he
  rcases List.mem_append.1 he with h1 | h1
  · rcases List.mem_append.1 h1 with h2 | h2
    · rcases validate_logs (initS env pg0) s₁ false hval e h2 with h3 | ⟨lv, line, rfl⟩
      · simp [initS] at h3
      · rfl
    · simp at h2
      simp [h2, browserEv]
  · obtain ⟨r, rfl⟩ := snEvents_tg _ _ _ _ _ _ _ _ _ e h1
    rfl

/-- Witness for C3: with `GH_USERNAME` unset the run exits 1 and its trace
holds no browser-session event. -/
theorem C3_witness :
    envNoUser "GH_USERNAME" = none ∧
    (run envNoUser bGH httpOk allFiles "now" ()).exitCode = 1 ∧
    ((run envNoUser bGH httpOk allFiles "now" ()).fin.events.all
      fun e => !browserEv e) = true :=
  ⟨by decide,
   (C3_missing_credentials Unit bGH envNoUser httpOk allFiles "now" ()
     (Or.inl (by decide))).1,
   by decide⟩

/-! ## The already-logged-in branch (C7) -/

theorem mem_coreEvs_of {e : Ev} {l : List Ev} (he : e ∈ l)
    (hc : coreEv e = true) : e ∈ coreEvs l :=
  List.mem_filter.2 ⟨he, hc⟩

/-- C7 (amended).  If the sign-in page opens and its URL (lowercased) no
longer contains `signin`, the driver takes the already-authenticated
branch: it runs verification, and on a positive verification performs
keep-alive and exits 0, while on a negative verification it exits 1; the
GitHub-button click step (step-2 marker) is never reached in either
case.  (The original claim's unconditional exit status 0 holds only when
verification also succeeds.) -/
theorem C7_already_logged_in (σ : Type) (b : Browser σ) (http : TgReq → Nat)
    (fexists : String → Bool) (now : String) (s s₁ : S σ)
    (h1 : openSignin b s = (s₁, Except.ok ()))
    (h2 : substr "signin" (lowerStr (b.url s₁.page)) = false) :
    runBody b http fexists now s = alreadyBranch b http fexists now s₁ ∧
    ((verify_login b (log s₁ "已经登录！" "SUCCESS")).2 = Except.ok true →
      (alreadyBranch b http fexists now s₁).2 = Except.ok 0) ∧
    ((verify_login b (log s₁ "已经登录！" "SUCCESS")).2 = Except.ok false →
      (alreadyBranch b http fexists now s₁).2 = Except.ok 1) ∧
    (Ev.logE "STEP" (icon "STEP" ++ " " ++ "步骤 2: 点击 GitHub 登录按钮") ∉ s₁.events →
      Ev.logE "STEP" (icon "STEP" ++ " " ++ "步骤 2: 点击 GitHub 登录按钮") ∉
        (alreadyBranch b http fexists now s₁).1.events) := by
  refine ⟨?_, ?_, ?_, ?_⟩
  · simp only [runBody]
    rw [h1]
    simp [h2]
  · intro hv
    rcases hver : verify_login b (log s₁ "已经登录！" "SUCCESS") with ⟨s₂, rv⟩
    rw [hver] at hv
    simp only at hv
    subst hv
    simp only [alreadyBranch]
    rw [hver]
  · intro hv
    rcases hver : verify_login b (log s₁ "已经登录！" "SUCCESS") with ⟨s₂, rv⟩
    rw [hver] at hv
    simp only at hv
    subst hv
    simp only [alreadyBranch]
    rw [hver]
  · intro hni hmem
    obtain ⟨hx, hdisj⟩ := alreadyBranch_spec b http fexists now s₁
      (alreadyBranch b http fexists now s₁).1
      (alreadyBranch b http fexists now s₁).2 rfl
    have hcore : coreEv (Ev.logE "STEP"
        (icon "STEP" ++ " " ++ "步骤 2: 点击 GitHub 登录按钮")) = true := by decide
    have hmem2 := mem_coreEvs_of hmem hcore
    rcases hdisj with ⟨hr, hcoreEq⟩ | ⟨hr, hcoreEq, _⟩ | ⟨e, hre, hcoreEq⟩
    · rw [hcoreEq] at hmem2
      rcases List.mem_append.1 hmem2 with h | h
      · exact hni (mem_of_coreEvs h)
      · simp at h
    · rw [hcoreEq] at hmem2
      rcases List.mem_append.1 hmem2 with h | h
      · exact hni (mem_of_coreEvs h)
      · simp at h
    · rw [hcoreEq] at hmem2
      exact hni (mem_of_coreEvs hmem2)

/-- Witness for C7: on a browser that leaves the sign-in URL after the
first navigation, the run body takes the already-logged-in branch, and
since verification fails there it exits 1. -/
theorem C7_witness :
    runBody bWander httpOk allFiles "now" (initS envFull 0) =
      alreadyBranch bWander httpOk allFiles "now"
        (openSignin bWander (initS envFull 0)).1 ∧
    (alreadyBranch bWander httpOk allFiles "now"
        (openSignin bWander (initS envFull 0)).1).2 = Except.ok 1 := by
  have h := C7_already_logged_in Nat bWander httpOk allFiles "now"
    (initS envFull 0) (openSignin bWander (initS envFull 0)).1 rfl (by decide)
  exact ⟨h.1, h.2.2.1 rfl⟩

/-- Counterexample to C7 as stated: a run that takes the
already-authenticated branch (it logs `已经登录！`) yet exits with status 1,
because the verification step inside that branch fails. -/
theorem C7_counterexample :
    Ev.logE "SUCCESS" "✅ 已经登录！" ∈
      (run envFull bWander httpOk allFiles "now" 0).fin.events ∧
    (run envFull bWander httpOk allFiles "now" 0).exitCode = 1 :=
  ⟨by decide, by decide⟩

/-! ## Notification policy (C5) -/

theorem notifyCalls_markers_take (k : Nat) :
    notifyCalls (stepMarkers.take k) = [] := by
  apply List.filterMap_eq_nil_iff.mpr
  intro e he
  have hmem : e ∈ stepMarkers := List.take_subset k stepMarkers he
  have hall : ∀ x ∈ stepMarkers, notifySel x = none := by decide
  exact hall e hmem

theorem tgPhotos_send_message (n : TelegramNotifier) (http : TgReq → Nat)
    (m : String) : tgPhotos (n.send_message http m).2 = [] := by
  simp only [TelegramNotifier.send_message]
  split
  · rfl
  · rfl

theorem tgPhotos_send_photo_len (n : TelegramNotifier) (http : TgReq → Nat)
    (fexists : String → Bool) (p c : String) :
    (tgPhotos (n.send_photo http fexists p c).2).length ≤ 1 := by
  simp only [TelegramNotifier.send_photo]
  split
  · simp [tgPhotos]
  · split
    · simp [tgPhotos]
    · simp [tgPhotos, photoSel]

/-- C5.  Per run outcome the notification step is attempted exactly once
(the trace holds exactly one `notifyCallE`, whose flag matches the exit
code); the photo upload step of `send_notification` produces Telegram
photo traffic only when at least one screenshot exists; and more than one
photo is uploaded only on failure with more than one screenshot. -/
theorem C5_notification_policy (σ : Type) (env : Env) (b : Browser σ)
    (http : TgReq → Nat) (fexists : String → Bool) (now : String) (pg0 : σ) :
    (∃ m, notifyCalls (run env b http fexists now pg0).fin.events =
        [((run env b http fexists now pg0).exitCode == 0, m)]) ∧
    (∀ tg username logs screenshots success msg,
      tgPhotos (snEvents tg username http fexists now logs screenshots
        success msg) ≠ [] → screenshots ≠ []) ∧
    (∀ tg username logs screenshots success msg,
      1 < (tgPhotos (snEvents tg username http fexists now logs screenshots
        success msg)).length → success = false ∧ 1 < screenshots.length) := by
  refine ⟨?_, ?_, ?_⟩
  · obtain ⟨k, m, hk, hcore, _⟩ := run_spec σ env b http fexists now pg0
    refine ⟨m, ?_⟩
    rw [← notifyCalls_coreEvs, hcore, notifyCalls_append, notifyCalls_markers_take]
    rfl
  · intro tg username logs screenshots success msg hne
    intro hs
    apply hne
    subst hs
    simp only [snEvents]
    split
    · rfl
    · rw [tgPhotos_append, tgPhotos_send_message]
      rfl
  · intro tg username logs screenshots success msg hlen
    simp only [snEvents] at hlen
    split at hlen
    · simp [tgPhotos] at hlen
    · rcases hl : screenshots.getLast? with _ | last
      · simp only [hl] at hlen
        have h0 := tgPhotos_send_message tg http
          (build_message username now success msg logs)
        simp only [tgPhotos] at h0
        simp [tgPhotos, h0] at hlen
      · simp only [hl] at hlen
        by_cases hc : (!success && decide (1 < screenshots.length)) = true
        · simp only [Bool.and_eq_true, Bool.not_eq_true', decide_eq_true_eq] at hc
          exact hc
        · rw [if_neg hc] at hlen
          have h0 := tgPhotos_send_message tg http
            (build_message username now success msg logs)
          have hle := tgPhotos_send_photo_len tg http fexists last
            (if success = true then "最终截图" else "错误截图")
          simp only [tgPhotos] at h0 hle
          simp [tgPhotos, h0] at hlen
          have : False := by omega
          exact this.elim

/-! ## Failure policy (C4) -/

theorem count_coreEvs (ev : Ev) (hev : coreEv ev = true) (l : List Ev) :
    l.count ev = (coreEvs l).count ev := by
  induction l with
  | nil => rfl
  | cons e t ih =>
    simp only [coreEvs] at ih ⊢
    by_cases he : e = ev
    · subst he
      rw [List.filter_cons_of_pos hev, List.count_cons_self,
        List.count_cons_self, ih]
    · rw [List.count_cons_of_ne (Ne.symm he)]
      by_cases hc : coreEv e = true
      · rw [List.filter_cons_of_pos hc, List.count_cons_of_ne (Ne.symm he), ih]
      · rw [List.filter_cons_of_neg (by simpa using hc), ih]

theorem foldl_photo_acc_mono (n : TelegramNotifier) (http : TgReq → Nat)
    (fexists : String → Bool) (l : List String) :
    ∀ acc e, e ∈ acc → e ∈ l.foldl (fun acc shot =>
      acc ++ (n.send_photo http fexists shot ("调试截图: " ++ shot)).2) acc := by
  induction l with
  | nil => intro acc e he; exact he
  | cons shot rest ih =>
    intro acc e he
    rw [List.foldl_cons]
    exact ih _ e (List.mem_append.2 (Or.inl he))

theorem foldl_photo_mem (n : TelegramNotifier) (http : TgReq → Nat)
    (fexists : String → Bool) (hen : n.enabled = true)
    (hfx : ∀ q, fexists q = true) (l : List String) :
    ∀ acc p, p ∈ l →
      Ev.tgReqE (TgReq.sendPhoto (optStr n.chat_id) p ("调试截图: " ++ p)) ∈
        l.foldl (fun acc shot =>
          acc ++ (n.send_photo http fexists shot ("调试截图: " ++ shot)).2) acc := by
  induction l with
  | nil => intro acc p hp; simp at hp
  | cons shot rest ih =>
    intro acc p hp
    rw [List.foldl_cons]
    rcases List.mem_cons.1 hp with rfl | hp'
    · apply foldl_photo_acc_mono
      refine List.mem_append.2 (Or.inr ?_)
      simp [TelegramNotifier.send_photo, hen, hfx]
    · exact ih _ p hp'

/-- C4 (amended).  Every failure path sends exactly one failure
notification, logs an ERROR-level message and exits non-zero, and every
failure path except the missing-credentials validation failure also takes
a labeled screenshot (that path exits before the browser session and takes
none); no step is retried (each step marker appears at most once in the
trace); the notification text ends with the last 10 log lines whenever any
log lines exist; and on failure with the notifier enabled and the
screenshot files present, every accumulated screenshot is uploaded. -/
theorem C4_failure_policy (σ : Type) (env : Env) (b : Browser σ)
    (http : TgReq → Nat) (fexists : String → Bool) (now : String) (pg0 : σ) :
    ((run env b http fexists now pg0).exitCode ≠ 0 →
      ∃ m, notifyCalls (run env b http fexists now pg0).fin.events = [(false, m)] ∧
        (∃ line, Ev.logE "ERROR" line ∈ (run env b http fexists now pg0).fin.events) ∧
        (m ≠ "凭据未配置" →
          ∃ f, Ev.shotE f ∈ (run env b http fexists now pg0).fin.events)) ∧
    (∀ ev ∈ stepMarkers,
      (run env b http fexists now pg0).fin.events.count ev ≤ 1) ∧
    (∀ username success msg logs, logs ≠ ([] : List String) →
      ∃ p, build_message username now success msg logs =
        p ++ String.intercalate "\n" (lastN 10 logs)) ∧
    (∀ tg username logs screenshots msg, tg.enabled = true →
      (∀ q, fexists q = true) → ∀ p ∈ screenshots,
        ∃ c, Ev.tgReqE (TgReq.sendPhoto (optStr tg.chat_id) p c) ∈
          snEvents tg username http fexists now logs screenshots false msg) := by
  refine ⟨?_, ?_, ?_, ?_⟩
  · intro hc0
    obtain ⟨k, m, hk, hcore, hfail⟩ := run_spec σ env b http fexists now pg0
    obtain ⟨herr, hshot⟩ := hfail hc0
    refine ⟨m, ?_, herr, hshot⟩
    rw [← notifyCalls_coreEvs, hcore, notifyCalls_append, notifyCalls_markers_take]
    rw [show ((run env b http fexists now pg0).exitCode == 0) = false from
      beq_eq_false_iff_ne.2 hc0]
    rfl
  · intro ev hev
    obtain ⟨k, m, hk, hcore, _⟩ := run_spec σ env b http fexists now pg0
    have hc : coreEv ev = true := by
      have hall : ∀ x ∈ stepMarkers, coreEv x = true := by decide
      exact hall ev hev
    rw [count_coreEvs ev hc, hcore, List.count_append]
    have h1 : (stepMarkers.take k).count ev ≤ 1 := by
      calc (stepMarkers.take k).count ev ≤ stepMarkers.count ev :=
            (List.take_sublist k stepMarkers).count_le ev
        _ = 1 := by fin_cases hev <;> decide
    have h2 : List.count ev
        [Ev.notifyCallE ((run env b http fexists now pg0).exitCode == 0) m] = 0 := by
      have hlog : ∃ lv line, ev = Ev.logE lv line := by
        fin_cases hev <;> exact ⟨_, _, rfl⟩
      obtain ⟨lv, line, rfl⟩ := hlog
      simp [List.count_cons]
    omega
  · intro username success msg logs hne
    have hd : lastN 10 logs ≠ [] := by
      simp only [lastN]
      rw [Ne, List.drop_eq_nil_iff]
      have hlen : 0 < logs.length := List.length_pos.2 hne
      omega
    have hrec : (lastN 10 logs).isEmpty = false := by
      cases hl : lastN 10 logs with
      | nil => exact absurd hl hd
      | cons a t => rfl
    simp only [build_message, hrec, Bool.false_eq_true, if_false]
    exact ⟨_, rfl⟩
  · intro tg username logs screenshots msg hen hfx p hp
    have hne : screenshots ≠ [] := List.ne_nil_of_mem hp
    simp only [snEvents]
    split
    next hfalse =>
      rw [hen] at hfalse
      simp at hfalse
    next =>
      obtain ⟨last, hl⟩ : ∃ last, screenshots.getLast? = some last := by
        cases hl : screenshots.getLast? with
        | none => exact absurd (List.getLast?_eq_none_iff.1 hl) hne
        | some x => exact ⟨x, rfl⟩
      simp only [hl]
      rw [← List.dropLast_append_getLast hne] at hp
      rcases List.mem_append.1 hp with hpd | hpl
      · have h2 : 1 < screenshots.length := by
          have hpos : 0 < screenshots.dropLast.length :=
            List.length_pos.2 (List.ne_nil_of_mem hpd)
          rw [List.length_dropLast] at hpos
          omega
        refine ⟨"调试截图: " ++ p, ?_⟩
        refine List.mem_append.2 (Or.inr ?_)
        refine List.mem_append.2 (Or.inr ?_)
        rw [if_pos (by simp [h2])]
        exact foldl_photo_mem tg http fexists hen hfx _ [] p hpd
      · have hpl' : p = screenshots.getLast hne := by simpa using hpl
        have hlast : last = screenshots.getLast hne := by
          rw [List.getLast?_eq_getLast screenshots hne] at hl
          exact (Option.some.inj hl).symm
        refine ⟨"错误截图", ?_⟩
        refine List.mem_append.2 (Or.inr ?_)
        refine List.mem_append.2 (Or.inl ?_)
        rw [hpl', ← hlast]
        simp [TelegramNotifier.send_photo, hen, hfx]

/-- Witness for C4: at a concrete failing run, the first step marker occurs
at most once (the marker-membership hypothesis is discharged by
evaluation), and the run indeed exits 1. -/
theorem C4_witness :
    (run envFull bWander httpOk allFiles "now" 0).fin.events.count
      (Ev.logE "STEP" (icon "STEP" ++ " " ++ "步骤 1: 打开 ClawCloud 登录页")) ≤ 1 ∧
    (run envFull bWander httpOk allFiles "now" 0).exitCode = 1 :=
  ⟨(C4_failure_policy Nat envFull bWander httpOk allFiles "now" 0).2.1
      (Ev.logE "STEP" (icon "STEP" ++ " " ++ "步骤 1: 打开 ClawCloud 登录页"))
      (by decide),
   by decide⟩

/-- Counterexample to C4 as stated: the missing-credentials failure path
exits 1 with the notifier enabled, yet takes no screenshot at all, so not
every failure path takes a labeled screenshot. -/
theorem C4_counterexample :
    (run envNoUser bGH httpOk allFiles "now" ()).exitCode = 1 ∧
    shots (run envNoUser bGH httpOk allFiles "now" ()).fin.events = [] ∧
    (TelegramNotifier.init envNoUser).enabled = true :=
  ⟨by decide, by decide, by decide⟩

/-- Witness for C5: photo traffic implies a screenshot exists (applied at a
concrete notifier and screenshot list), and the concrete failing run
notifies exactly once with the failure flag. -/
theorem C5_witness :
    (["a.png"] : List String) ≠ [] ∧
    notifyCalls (run envFull bWander httpOk allFiles "now" 0).fin.events =
      [(false, "验证登录状态失败")] :=
  ⟨(C5_notification_policy Nat envFull bWander httpOk allFiles "now" 0).2.1
      (TelegramNotifier.init envFull) (some "octo") [] ["a.png"] true "" (by decide),
   by decide⟩

/-! ## Debug-flag non-interference (C10)

The `debug` field is written once in `AutoLogin.__init__` and never read
again: every operation of the script commutes with overwriting it. -/

@[simp] theorem setDebug_page (d : Bool) (s : S σ) :
    (setDebug d s).page = s.page := rfl

@[simp] theorem setDebug_events (d : Bool) (s : S σ) :
    (setDebug d s).events = s.events := rfl

@[simp] theorem setDebug_username (d : Bool) (s : S σ) :
    (setDebug d s).a.username = s.a.username := rfl

@[simp] theorem setDebug_token (d : Bool) (s : S σ) :
    (setDebug d s).a.token = s.a.token := rfl

@[simp] theorem setDebug_count (d : Bool) (s : S σ) :
    (setDebug d s).a.screenshot_count = s.a.screenshot_count := rfl

@[simp] theorem setDebug_shots (d : Bool) (s : S σ) :
    (setDebug d s).a.screenshots = s.a.screenshots := rfl

@[simp] theorem setDebug_telegram (d : Bool) (s : S σ) :
    (setDebug d s).a.telegram = s.a.telegram := rfl

@[simp] theorem setDebug_logs (d : Bool) (s : S σ) :
    (setDebug d s).a.logs = s.a.logs := rfl

@[simp] theorem setDebug_update_events (d : Bool) (s : S σ) (evs : List Ev) :
    ({ setDebug d s with events := evs } : S σ) =
      setDebug d { s with events := evs } := rfl

@[simp] theorem setDebug_update_page (d : Bool) (s : S σ) (pg : σ) :
    ({ setDebug d s with page := pg } : S σ) =
      setDebug d { s with page := pg } := rfl

@[simp] theorem mk_setDebug_a (d : Bool) (s : S σ) (pg : σ) (evs : List Ev) :
    (S.mk (setDebug d s).a pg evs : S σ) = setDebug d (S.mk s.a pg evs) := rfl

@[simp] theorem log_setDebug (d : Bool) (s : S σ) (m lv : String) :
    log (setDebug d s) m lv = setDebug d (log s m lv) := rfl

@[simp] theorem screenshot_setDebug (d : Bool) (s : S σ) (n : String) :
    screenshot (setDebug d s) n =
      (setDebug d (screenshot s n).1, (screenshot s n).2) := rfl

@[simp] theorem send_notification_setDebug (http : TgReq → Nat)
    (fexists : String → Bool) (now : String) (d : Bool) (s : S σ)
    (success : Bool) (msg : String) :
    send_notification http fexists now (setDebug d s) success msg =
      setDebug d (send_notification http fexists now s success msg) := rfl

theorem validate_setDebug (d : Bool) (s : S σ) :
    validate_credentials (setDebug d s) =
      (setDebug d (validate_credentials s).1, (validate_credentials s).2) := by
  simp only [validate_credentials, setDebug_username, setDebug_token]
  by_cases h1 : (!truthy s.a.username) = true
  · simp only [if_pos h1]
    simp
  · simp only [if_neg h1]
    by_cases h2 : (!truthy s.a.token) = true
    · simp only [if_pos h2]
      simp
    · simp only [if_neg h2]
      simp

@[simp] theorem ite_setDebug (c : Prop) [Decidable c] (d : Bool) (x y : S σ) :
    (if c then setDebug d x else setDebug d y) = setDebug d (if c then x else y) := by
  split <;> rfl

theorem find_and_click_setDebug (b : Browser σ) (d : Bool) (s : S σ)
    (sels : List String) (desc : String) :
    find_and_click b (setDebug d s) sels desc =
      (setDebug d (find_and_click b s sels desc).1,
       (find_and_click b s sels desc).2) := by
  induction sels with
  | nil => rfl
  | cons sel rest ih =>
    simp only [find_and_click, setDebug_page]
    by_cases h : b.isVisible s.page sel 3000 = true
    · simp only [if_pos h]
      cases hc : b.click s.page sel with
      | error e => exact ih
      | ok pg => simp
    · simp only [if_neg h]
      exact ih

theorem github_checks_setDebug (b : Browser σ) (d : Bool) (s : S σ) (u : String) :
    github_checks b (setDebug d s) u =
      (setDebug d (github_checks b s u).1, (github_checks b s u).2) := by
  simp only [github_checks]
  simp only [setDebug_page, setDebug_events, setDebug_username, setDebug_token,
    setDebug_count, setDebug_shots, setDebug_telegram, setDebug_logs,
    mk_setDebug_a, log_setDebug, screenshot_setDebug, send_notification_setDebug,
    ite_setDebug]
  split
  · first | rfl | simp
  · split
    · first | rfl | simp
    · first | rfl | simp
    · split
      · first | rfl | simp
      · split
        · split
          · first | rfl | simp
          · split
            · first | rfl | simp
            · split
              · first | rfl | simp
              · first | rfl | simp
        · first | rfl | simp

theorem login_github_setDebug (b : Browser σ) (d : Bool) (s : S σ) :
    login_github b (setDebug d s) =
      (setDebug d (login_github b s).1, (login_github b s).2) := by
  simp only [login_github]
  simp only [setDebug_page, setDebug_events, setDebug_username, setDebug_token,
    setDebug_count, setDebug_shots, setDebug_telegram, setDebug_logs,
    mk_setDebug_a, log_setDebug, screenshot_setDebug, send_notification_setDebug,
    ite_setDebug, github_checks_setDebug]
  split
  · first | rfl | simp
  · split
    · first | rfl | simp
    · split
      · first | rfl | simp
      · split
        · first | rfl | simp
        · first | rfl | simp

theorem handle_oauth_setDebug (b : Browser σ) (d : Bool) (s : S σ) :
    handle_oauth b (setDebug d s) =
      (setDebug d (handle_oauth b s).1, (handle_oauth b s).2) := by
  simp only [handle_oauth]
  simp only [setDebug_page, setDebug_events, setDebug_username, setDebug_token,
    setDebug_count, setDebug_shots, setDebug_telegram, setDebug_logs,
    mk_setDebug_a, log_setDebug, screenshot_setDebug, send_notification_setDebug,
    ite_setDebug, find_and_click_setDebug]
  split
  · split
    · first | rfl | simp
    · first | rfl | simp
  · first | rfl | simp

theorem waitLoop_setDebug (b : Browser σ) (d : Bool) :
    ∀ (fuel i : Nat) (s : S σ), waitLoop b fuel i (setDebug d s) =
      (setDebug d (waitLoop b fuel i s).1, (waitLoop b fuel i s).2) := by
  intro fuel
  induction fuel with
  | zero => intro i s; simp [waitLoop]
  | succ n ih =>
    intro i s
    simp only [waitLoop]
    simp only [setDebug_page, setDebug_events, setDebug_username, setDebug_token,
      setDebug_count, setDebug_shots, setDebug_telegram, setDebug_logs,
      mk_setDebug_a, log_setDebug, screenshot_setDebug, send_notification_setDebug,
      ite_setDebug, handle_oauth_setDebug]
    by_cases hs : succCond (b.url s.page) = true
    · simp [hs]
    · simp only [if_neg hs]
      by_cases hgh : (decide (10 < i) && ghCond (b.url s.page)) = true
      · simp [hgh]
      · simp only [if_neg hgh]
        by_cases ho : oauthCond (b.url s.page) = true
        · simp only [if_pos ho]
          rcases hH : handle_oauth b { s with events := s.events ++ [Ev.pollE (b.url s.page)] } with ⟨s₃, r₃⟩
          cases r₃ with
          | error e => first | rfl | simp
          | ok v =>
            cases v
            simp [ih]
        · simp only [if_neg ho]
          simp [ih]

theorem wait_redirect_setDebug (b : Browser σ) (d : Bool) (s : S σ) (n : Nat) :
    wait_redirect b (setDebug d s) n =
      (setDebug d (wait_redirect b s n).1, (wait_redirect b s n).2) := by
  simp only [wait_redirect, log_setDebug, waitLoop_setDebug]

theorem verify_login_setDebug (b : Browser σ) (d : Bool) (s : S σ) :
    verify_login b (setDebug d s) =
      (setDebug d (verify_login b s).1, (verify_login b s).2) := by
  simp only [verify_login]
  simp only [setDebug_page, setDebug_events, setDebug_username, setDebug_token,
    setDebug_count, setDebug_shots, setDebug_telegram, setDebug_logs,
    mk_setDebug_a, log_setDebug, screenshot_setDebug, send_notification_setDebug,
    ite_setDebug]
  split
  · first | rfl | simp
  · split
    · first | rfl | simp
    · split
      · first | rfl | simp
      · split
        · first | rfl | simp
        · first | rfl | simp

theorem kaLoop_setDebug (b : Browser σ) (d : Bool) :
    ∀ (ps : List (String × String)) (s : S σ),
      kaLoop b ps (setDebug d s) =
        (setDebug d (kaLoop b ps s).1, (kaLoop b ps s).2) := by
  intro ps
  induction ps with
  | nil => intro s; simp [kaLoop]
  | cons p rest ih =>
    rcases p with ⟨url, name⟩
    intro s
    simp only [kaLoop]
    simp only [setDebug_page, setDebug_events, setDebug_username, setDebug_token,
      setDebug_count, setDebug_shots, setDebug_telegram, setDebug_logs,
      mk_setDebug_a, log_setDebug, screenshot_setDebug, send_notification_setDebug,
      ite_setDebug]
    split
    · first | rfl | simp [ih]
    · split
      · first | rfl | simp [ih]
      · split
        · first | rfl | simp [ih]
        · first | rfl | simp [ih]

theorem keepalive_setDebug (b : Browser σ) (d : Bool) (s : S σ) :
    keepalive b (setDebug d s) =
      (setDebug d (keepalive b s).1, (keepalive b s).2) := by
  simp only [keepalive, log_setDebug, kaLoop_setDebug]

theorem openSignin_setDebug (b : Browser σ) (d : Bool) (s : S σ) :
    openSignin b (setDebug d s) =
      (setDebug d (openSignin b s).1, (openSignin b s).2) := by
  simp only [openSignin]
  simp only [setDebug_page, setDebug_events, setDebug_username, setDebug_token,
    setDebug_count, setDebug_shots, setDebug_telegram, setDebug_logs,
    mk_setDebug_a, log_setDebug, screenshot_setDebug, send_notification_setDebug,
    ite_setDebug]
  split
  · first | rfl | simp
  · split
    · first | rfl | simp
    · first | rfl | simp

theorem afterVerify_setDebug (b : Browser σ) (http : TgReq → Nat)
    (fexists : String → Bool) (now : String) (d : Bool) (s : S σ) :
    afterVerify b http fexists now (setDebug d s) =
      (setDebug d (afterVerify b http fexists now s).1,
       (afterVerify b http fexists now s).2) := by
  simp only [afterVerify, log_setDebug, keepalive_setDebug,
    send_notification_setDebug]

theorem alreadyBranch_setDebug (b : Browser σ) (http : TgReq → Nat)
    (fexists : String → Bool) (now : String) (d : Bool) (s : S σ) :
    alreadyBranch b http fexists now (setDebug d s) =
      (setDebug d (alreadyBranch b http fexists now s).1,
       (alreadyBranch b http fexists now s).2) := by
  simp only [alreadyBranch]
  simp only [log_setDebug, verify_login_setDebug]
  rcases hV : verify_login b (log s "已经登录！" "SUCCESS") with ⟨s₂, rv⟩
  cases rv with
  | error e => first | rfl | simp
  | ok bv =>
    cases bv with
    | true => simp [keepalive_setDebug]
    | false => first | rfl | simp

theorem step4Flow_setDebug (b : Browser σ) (http : TgReq → Nat)
    (fexists : String → Bool) (now : String) (d : Bool) (s : S σ) :
    step4Flow b http fexists now (setDebug d s) =
      (setDebug d (step4Flow b http fexists now s).1,
       (step4Flow b http fexists now s).2) := by
  simp only [step4Flow]
  simp only [setDebug_page, setDebug_events, setDebug_username, setDebug_token,
    setDebug_count, setDebug_shots, setDebug_telegram, setDebug_logs,
    mk_setDebug_a, log_setDebug, screenshot_setDebug, send_notification_setDebug,
    ite_setDebug, wait_redirect_setDebug, verify_login_setDebug,
    afterVerify_setDebug]
  rcases hW : wait_redirect b (log s "步骤 4: 等待重定向" "STEP") 45 with ⟨s₂, wv⟩
  cases wv with
  | error e => first | rfl | simp
  | ok wb =>
    cases wb with
    | false => first | rfl | simp
    | true =>
      simp only [screenshot_setDebug, log_setDebug, verify_login_setDebug]
      rcases hV : verify_login b (log (screenshot s₂ "重定向成功").1 "步骤 5: 验证登录状态" "STEP") with ⟨s₃, rv⟩
      cases rv with
      | error e => first | rfl | simp
      | ok vb =>
        cases vb with
        | false => first | rfl | simp
        | true => first | rfl | simp [afterVerify_setDebug]

theorem step3Flow_setDebug (b : Browser σ) (http : TgReq → Nat)
    (fexists : String → Bool) (now : String) (d : Bool) (s : S σ) :
    step3Flow b http fexists now (setDebug d s) =
      (setDebug d (step3Flow b http fexists now s).1,
       (step3Flow b http fexists now s).2) := by
  simp only [step3Flow]
  simp only [setDebug_page, login_github_setDebug]
  by_cases hg : ghCond (b.url s.page) = true
  · simp only [if_pos hg]
    rcases hL : login_github b s with ⟨s₂, rl⟩
    cases rl with
    | error e => first | rfl | simp
    | ok lv =>
      cases lv with
      | false => first | rfl | simp
      | true => simp [step4Flow_setDebug]
  · simp only [if_neg hg]
    simp [step4Flow_setDebug]

theorem mainFlow_setDebug (b : Browser σ) (http : TgReq → Nat)
    (fexists : String → Bool) (now : String) (d : Bool) (s : S σ) :
    mainFlow b http fexists now (setDebug d s) =
      (setDebug d (mainFlow b http fexists now s).1,
       (mainFlow b http fexists now s).2) := by
  simp only [mainFlow]
  simp only [setDebug_page, setDebug_events, setDebug_username, setDebug_token,
    setDebug_count, setDebug_shots, setDebug_telegram, setDebug_logs,
    mk_setDebug_a, log_setDebug, screenshot_setDebug, send_notification_setDebug,
    ite_setDebug, find_and_click_setDebug]
  rcases hF : find_and_click b (log s "步骤 2: 点击 GitHub 登录按钮" "STEP") github_selectors "GitHub 按钮" with ⟨s₂, fb⟩
  cases fb with
  | false => first | rfl | simp
  | true =>
    simp only [setDebug_page, setDebug_events, mk_setDebug_a, log_setDebug,
      screenshot_setDebug]
    split
    · first | rfl | simp
    · first | rfl | simp [step3Flow_setDebug]

theorem runBody_setDebug (b : Browser σ) (http : TgReq → Nat)
    (fexists : String → Bool) (now : String) (d : Bool) (s : S σ) :
    runBody b http fexists now (setDebug d s) =
      (setDebug d (runBody b http fexists now s).1,
       (runBody b http fexists now s).2) := by
  simp only [runBody]
  simp only [setDebug_page, openSignin_setDebug]
  rcases hO : openSignin b s with ⟨s₁, ro⟩
  cases ro with
  | error e => first | rfl | simp
  | ok u =>
    cases u
    by_cases hsub : substr "signin" (lowerStr (b.url s₁.page)) = true
    · simp [hsub, mainFlow_setDebug]
    · simp [hsub, alreadyBranch_setDebug]

theorem runFrom_setDebug (b : Browser σ) (http : TgReq → Nat)
    (fexists : String → Bool) (now : String) (d : Bool) (s : S σ) :
    runFrom b http fexists now (setDebug d s) =
      { exitCode := (runFrom b http fexists now s).exitCode,
        fin := setDebug d (runFrom b http fexists now s).fin } := by
  simp only [runFrom]
  simp only [setDebug_page, setDebug_events, setDebug_username, setDebug_token,
    setDebug_count, setDebug_shots, setDebug_telegram, setDebug_logs,
    mk_setDebug_a, log_setDebug, screenshot_setDebug, send_notification_setDebug,
    ite_setDebug, validate_setDebug, runBody_setDebug]
  rcases hv : validate_credentials s with ⟨s₁, rv⟩
  cases rv with
  | false => first | rfl | simp
  | true =>
    simp only [setDebug_page, setDebug_events, mk_setDebug_a, log_setDebug,
      screenshot_setDebug, send_notification_setDebug, runBody_setDebug]
    rcases hB : runBody b http fexists now { s₁ with events := s₁.events ++ [Ev.browserLaunchE] } with ⟨s₂, rb⟩
    cases rb with
    | ok code => first | rfl | simp
    | error e => first | rfl | simp

theorem initS_setDebug (e₁ e₂ : Env)
    (h : ∀ k, k ≠ "DEBUG_MODE" → e₁ k = e₂ k) (pg0 : σ) :
    initS e₁ pg0 =
      setDebug (lowerStr ((e₁ "DEBUG_MODE").getD "true") == "true")
        (initS e₂ pg0) := by
  have h1 := h "GH_USERNAME" (by decide)
  have h2 := h "GH_PAT" (by decide)
  have h3 := h "TG_BOT_TOKEN" (by decide)
  have h4 := h "TG_CHAT_ID" (by decide)
  simp [initS, setDebug, AutoLogin.init, TelegramNotifier.init, h1, h2, h3, h4]

/-- C10.  Two runs whose environments agree on every key except
`DEBUG_MODE` have identical observable behavior (exit status, log lines,
screenshot files and counter, and the whole event trace including
notifications and cookie writes): the flag is stored at construction and
never consulted afterwards. -/
theorem C10_debug_independent (σ : Type) (b : Browser σ) (http : TgReq → Nat)
    (fexists : String → Bool) (now : String) (pg0 : σ) (e₁ e₂ : Env)
    (h : ∀ k, k ≠ "DEBUG_MODE" → e₁ k = e₂ k) :
    observables (run e₁ b http fexists now pg0) =
      observables (run e₂ b http fexists now pg0) := by
  simp only [run]
  rw [initS_setDebug e₁ e₂ h pg0, runFrom_setDebug]
  rfl

/-- Witness for C10: a full-credential environment with `DEBUG_MODE` unset
(debug defaults to on) and the same environment with `DEBUG_MODE=false`
produce identical observables, while their stored debug flags differ. -/
theorem C10_witness :
    observables (run envFull bWander httpOk allFiles "now" 0) =
      observables (run envDbgOff bWander httpOk allFiles "now" 0) ∧
    (run envFull bWander httpOk allFiles "now" 0).fin.a.debug = true ∧
    (run envDbgOff bWander httpOk allFiles "now" 0).fin.a.debug = false :=
  ⟨C10_debug_independent Nat bWander httpOk allFiles "now" 0 envFull envDbgOff
      (fun k hk => by
        simp only [envDbgOff]
        rw [if_neg hk]),
   by decide, by decide⟩

end Claw
